import Mathlib

/-!
Verification of the booking-backend adapter of the calcom-chatbot repository
(`src/app_c.py`) against its natural-language specification.

The adapter (class `CalComAPI`) talks to an external booking API that exposes
two generations (v2, bearer token; v1, apiKey query parameter).  We embed the
adapter shallowly:

* JSON values are modelled by the inductive `Json`; Python dictionaries are
  `Json.obj` association lists, and Python's `d.get(k)` returning `None` is
  modelled as returning `Json.null`.
* The network is an environment `Backend : ReqSpec → NetOutcome` giving, per
  request, either a reply (status / parsed body / text) or a transport error
  (a `requests.exceptions.RequestException` that is not an `HTTPError`).
  Each operation returns, besides its result and the updated adapter state,
  the trace of requests it issued.
* `_make_request_with_retry` is modelled by `requestAttempts` /
  `makeRequestWithRetry` over a deterministic backend: 2xx–4xx replies return
  immediately, 5xx replies are retried and then returned, transport failures
  are retried and then re-raised (`Except.error`).  The 30-second GET cache
  of the source is not modelled: with a deterministic backend a cache hit
  returns exactly what re-issuing the request would, so it is observationally
  irrelevant to the properties proved here.
* Wall-clock data (log timestamps), the Streamlit sidebar output and the
  timezone rendering of `format_time_pst` are not observable by any property
  below; the first two are omitted and the last is an abstract parameter
  `fmtPst` of the environment, as is `isoOk`, the acceptance predicate of
  `datetime.fromisoformat` used by payload validation.
-/

/-- Parsed JSON values (the results of `response.json()` and the dictionaries
the adapter builds).  Python dictionaries preserve insertion order, hence the
association-list representation. -/
inductive Json where
  | null : Json
  | bool (b : Bool) : Json
  | num (n : Int) : Json
  | str (s : String) : Json
  | arr (elems : List Json) : Json
  | obj (fields : List (String × Json)) : Json
deriving Repr

mutual

/-- Structural equality test for JSON values. -/
def Json.beq : Json → Json → Bool
  | Json.null, Json.null => true
  | Json.bool a, Json.bool b => a == b
  | Json.num a, Json.num b => a == b
  | Json.str a, Json.str b => a == b
  | Json.arr xs, Json.arr ys => Json.beqList xs ys
  | Json.obj xs, Json.obj ys => Json.beqFields xs ys
  | _, _ => false

def Json.beqList : List Json → List Json → Bool
  | [], [] => true
  | x :: xs, y :: ys => Json.beq x y && Json.beqList xs ys
  | _, _ => false

def Json.beqFields : List (String × Json) → List (String × Json) → Bool
  | [], [] => true
  | (k1, v1) :: xs, (k2, v2) :: ys => k1 == k2 && Json.beq v1 v2 && Json.beqFields xs ys
  | _, _ => false

end

mutual

theorem Json.eq_of_beq : ∀ {a b : Json}, Json.beq a b = true → a = b
  | Json.null, Json.null, _ => rfl
  | Json.bool _, Json.bool _, h => by
      simp only [Json.beq, beq_iff_eq] at h; exact congrArg Json.bool h
  | Json.num _, Json.num _, h => by
      simp only [Json.beq, beq_iff_eq] at h; exact congrArg Json.num h
  | Json.str _, Json.str _, h => by
      simp only [Json.beq, beq_iff_eq] at h; exact congrArg Json.str h
  | Json.arr _, Json.arr _, h => congrArg Json.arr (Json.eq_of_beqList h)
  | Json.obj _, Json.obj _, h => congrArg Json.obj (Json.eq_of_beqFields h)

theorem Json.eq_of_beqList : ∀ {xs ys : List Json}, Json.beqList xs ys = true → xs = ys
  | [], [], _ => rfl
  | x :: xs, y :: ys, h => by
      simp only [Json.beqList, Bool.and_eq_true] at h
      exact congrArg₂ List.cons (Json.eq_of_beq h.1) (Json.eq_of_beqList h.2)

theorem Json.eq_of_beqFields :
    ∀ {xs ys : List (String × Json)}, Json.beqFields xs ys = true → xs = ys
  | [], [], _ => rfl
  | (k1, v1) :: xs, (k2, v2) :: ys, h => by
      simp only [Json.beqFields, Bool.and_eq_true, beq_iff_eq] at h
      have h1 : (k1, v1) = (k2, v2) :=
        congrArg₂ Prod.mk h.1.1 (Json.eq_of_beq h.1.2)
      exact congrArg₂ List.cons h1 (Json.eq_of_beqFields h.2)

end

mutual

theorem Json.beq_refl : ∀ a : Json, Json.beq a a = true
  | Json.null => rfl
  | Json.bool b => by simp [Json.beq]
  | Json.num n => by simp [Json.beq]
  | Json.str s => by simp [Json.beq]
  | Json.arr xs => Json.beqList_refl xs
  | Json.obj fs => Json.beqFields_refl fs

theorem Json.beqList_refl : ∀ xs : List Json, Json.beqList xs xs = true
  | [] => rfl
  | x :: xs => by
      simp only [Json.beqList, Bool.and_eq_true]
      exact ⟨Json.beq_refl x, Json.beqList_refl xs⟩

theorem Json.beqFields_refl : ∀ xs : List (String × Json), Json.beqFields xs xs = true
  | [] => rfl
  | (k, v) :: xs => by
      simp only [Json.beqFields, Bool.and_eq_true, beq_self_eq_true, true_and]
      exact ⟨Json.beq_refl v, Json.beqFields_refl xs⟩

end

instance : DecidableEq Json := fun a b =>
  if h : Json.beq a b = true then isTrue (Json.eq_of_beq h)
  else isFalse (fun he => h (he ▸ Json.beq_refl a))

/-- First binding of a key in an association list (Python dictionaries have
unique keys, so this is the binding). -/
def lookupField (fs : List (String × Json)) (k : String) : Option Json :=
  match fs.find? (fun p => p.1 == k) with
  | some p => some p.2
  | none => none

/-- `d.get(k)`: `None` (here `Json.null`) when the key is absent or the value
is not a dictionary.  (Python raises `AttributeError` on non-dicts; every call
site below either guards with `isinstance` or is commented.) -/
def Json.getKey : Json → String → Json
  | Json.obj fs, k => (lookupField fs k).getD Json.null
  | _, _ => Json.null

/-- `d.get(k, default)`. -/
def Json.getKeyD (j : Json) (k : String) (d : Json) : Json :=
  match j with
  | Json.obj fs => (lookupField fs k).getD d
  | _ => d

/-- Python truthiness of a parsed JSON value. -/
def Json.truthy : Json → Bool
  | Json.null => false
  | Json.bool b => b
  | Json.num n => n != 0
  | Json.str s => s != ""
  | Json.arr xs => !xs.isEmpty
  | Json.obj fs => !fs.isEmpty

/-- Python's `a or b` on values: the first truthy operand. -/
def pyOr (a b : Json) : Json := if a.truthy then a else b

/-- Python's `str()` of a parsed JSON value.  Containers only occur in
f-strings for scalar ids in the source, so their rendering is schematic. -/
def pyStr : Json → String
  | Json.null => "None"
  | Json.bool true => "True"
  | Json.bool false => "False"
  | Json.num n => toString n
  | Json.str s => s
  | Json.arr _ => "[...]"
  | Json.obj _ => "\x7b...\x7d"

/-- `pat` is a prefix of `s` (on character lists, kernel-reducible). -/
def charsPrefixOf : List Char → List Char → Bool
  | [], _ => true
  | _ :: _, [] => false
  | a :: as, b :: bs => a == b && charsPrefixOf as bs

/-- `pat` occurs inside `s` (on character lists, kernel-reducible). -/
def charsInfixOf (pat : List Char) : List Char → Bool
  | [] => charsPrefixOf pat []
  | c :: tl => charsPrefixOf pat (c :: tl) || charsInfixOf pat tl

/-- Python's `pat in s` substring test. -/
def strContains (s pat : String) : Bool :=
  charsInfixOf pat.data s.data

/-- `str.lower()` (character-wise, kernel-reducible). -/
def strLower (s : String) : String := String.mk (s.data.map Char.toLower)

/-- `str.strip()` (character-wise, kernel-reducible). -/
def strTrim (s : String) : String :=
  String.mk (((s.data.dropWhile Char.isWhitespace).reverse.dropWhile Char.isWhitespace).reverse)

/-- Python slicing `s[:n]` (character-wise, kernel-reducible). -/
def strTake (s : String) (n : Nat) : String := String.mk (s.data.take n)

/-- `s.startswith(pat)` (character-wise, kernel-reducible). -/
def strStartsWith (s pat : String) : Bool := charsPrefixOf pat.data s.data

/-- Truthiness of an optional string argument (Python `if x:` for a
string-or-None parameter). -/
def optTruthy : Option String → Bool
  | some s => s != ""
  | none => false

/-- Python's `a or b` for string-or-None values. -/
def pyOrOptStr (a b : Option String) : Option String :=
  if optTruthy a then a else b

/-- f-string rendering of a string-or-None value. -/
def pyStrOpt : Option String → String
  | some s => s
  | none => "None"

/-- A string-or-None value as a JSON field. -/
def optJson : Option String → Json
  | some s => Json.str s
  | none => Json.null

/-- An outbound HTTP request: method, URL and payload as the source builds
them (headers carry only authentication and are omitted). -/
structure ReqSpec where
  method : String
  url : String
  params : Json := Json.null
  body : Json := Json.null
deriving Repr, DecidableEq

/-- What the backend sends back for one physical request. -/
structure BackendReply where
  status : Nat
  body : Json := Json.null
  text : String := ""
deriving Repr, DecidableEq

/-- Outcome of one physical request: a reply, or a transport-level failure
(`requests.exceptions.RequestException` other than `HTTPError`). -/
inductive NetOutcome where
  | reply (r : BackendReply) : NetOutcome
  | transportError (msg : String) : NetOutcome
deriving Repr, DecidableEq

/-- The deterministic network environment. -/
abbrev Backend := ReqSpec → NetOutcome

/-- A received response (`requests.Response`): status, final URL, parsed JSON
body and raw text. -/
structure HttpResponse where
  status : Nat
  url : String
  body : Json
  text : String
deriving Repr, DecidableEq

/-- The retry loop of `_make_request_with_retry` (lines 180–230): per attempt,
a reply with status < 500 returns immediately; a 5xx reply is retried and the
last one returned; a transport failure is retried and finally re-raised.
Returns the outcome together with the number of physical attempts. -/
def requestAttempts (out : NetOutcome) : Nat → (Except String BackendReply) × Nat
  | 0 => (Except.error "no attempt", 0)
  | Nat.succ n =>
    match out with
    | NetOutcome.reply r =>
        if r.status < 500 then (Except.ok r, 1)
        else if n = 0 then (Except.ok r, 1)
        else
          let p := requestAttempts (NetOutcome.reply r) n
          (p.1, p.2 + 1)
    | NetOutcome.transportError m =>
        if n = 0 then (Except.error m, 1)
        else
          let p := requestAttempts (NetOutcome.transportError m) n
          (p.1, p.2 + 1)

/-- `_make_request_with_retry(method, url, max_retries, ...)`: the final
response (or re-raised transport failure) plus the trace of issued requests. -/
def makeRequestWithRetry (backend : Backend) (maxRetries : Nat) (spec : ReqSpec) :
    (Except String HttpResponse) × List ReqSpec :=
  let p := requestAttempts (backend spec) maxRetries
  (p.1.map (fun r => { status := r.status, url := spec.url, body := r.body, text := r.text }),
   List.replicate p.2 spec)

/-- One entry of the adapter's error log (`_log_error`); the wall-clock
timestamp of the source is not observable and is omitted. -/
structure LogEntry where
  operation : String
  error : Json
  details : Json := Json.null
deriving Repr, DecidableEq

/-- Mutable adapter state: the error log and the lazily-created
`_processing_bookings` set (`none` while the attribute does not exist yet). -/
structure ApiState where
  errorLog : List LogEntry := []
  processing : Option (List String) := none
deriving Repr, DecidableEq

/-- Core of `_log_error` (lines 162–174): append, then keep only the last 50
entries. -/
def logAppend (log : List LogEntry) (e : LogEntry) : List LogEntry :=
  let l := log ++ [e]
  if l.length > 50 then l.drop (l.length - 50) else l

/-- `_log_error` acting on the adapter state. -/
def logError (st : ApiState) (operation : String) (error : Json) (details : Json) : ApiState :=
  { st with errorLog := logAppend st.errorLog { operation := operation, error := error, details := details } }

/-- `get_error_log` (lines 176–178): the last 10 entries (`[-10:]`). -/
def getErrorLog (st : ApiState) : List LogEntry :=
  st.errorLog.drop (st.errorLog.length - 10)

/-- The external pieces the adapter depends on: the network, the acceptance
predicate of `datetime.fromisoformat` (after the `Z` → `+00:00` rewrite), and
the local-time rendering of `format_time_pst` on strings. -/
structure Env where
  backend : Backend
  isoOk : String → Bool
  fmtPst : String → String

/-! ## Payload validation (`validate_booking_payload`, lines 232–270) -/

/-- Result dictionary of `validate_booking_payload`. -/
structure ValidationResult where
  valid : Bool
  errors : List String
  warnings : List String
deriving Repr, DecidableEq

/-- The timezones the source accepts without a warning (line 263). -/
def validTimezones : List Json :=
  [Json.str "America/Los_Angeles", Json.str "America/New_York", Json.str "UTC"]

/-- `validate_booking_payload(payload)`.  `isoOk` stands for success of
`datetime.fromisoformat(start.replace("Z", "+00:00"))`; a non-string start
raises inside the `try` and is caught by the bare `except`, yielding the same
error.  A non-string email cannot reach the `in` test from `create_booking`
(which always passes strings); it is rendered through `pyStr` here. -/
def validateBookingPayload (isoOk : String → Bool) (payload : Json) : ValidationResult :=
  let etid := payload.getKey "eventTypeId"
  let e1 : List String :=
    if !etid.truthy then ["eventTypeId is required"]
    else
      match etid with
      | Json.num _ => []
      | Json.str _ => []
      | Json.bool _ => []   -- Python: bool is an instance of int
      | _ => ["eventTypeId must be a number or string"]
  let startV := payload.getKey "start"
  let e2 : List String :=
    if !startV.truthy then ["start time is required"]
    else
      match startV with
      | Json.str s =>
          if isoOk s then [] else ["start time must be in ISO format (YYYY-MM-DDTHH:MM:SSZ)"]
      | _ => ["start time must be in ISO format (YYYY-MM-DDTHH:MM:SSZ)"]
  let attendee := payload.getKeyD "attendee" (Json.obj [])
  let emailV := attendee.getKey "email"
  let e3 : List String :=
    if !emailV.truthy then ["attendee email is required"]
    else if !(strContains (pyStr emailV) "@") then ["attendee email must be valid"]
    else []
  let e4 : List String :=
    if !(attendee.getKey "name").truthy then ["attendee name is required"] else []
  let tzV := attendee.getKey "timeZone"
  let w1 : List String :=
    if tzV.truthy && !(validTimezones.contains tzV) then
      ["Timezone " ++ pyStr tzV ++ " might not be supported by Cal.com"]
    else []
  let errors := e1 ++ e2 ++ e3 ++ e4
  { valid := errors.isEmpty, errors := errors, warnings := w1 }

/-! ## `get_event_types` (lines 272–394) -/

/-- Structure-5 fallback of the parsers: the first value that is a nonempty
list whose first element is a dictionary (lines 357–362 and 913–918). -/
def firstListOfDicts : List (String × Json) → List Json
  | [] => []
  | (_, Json.arr (Json.obj f :: rest)) :: _ => Json.obj f :: rest
  | _ :: tl => firstListOfDicts tl

/-- Lines 343–347: the first of the keys bound to a list in `inner`. -/
def firstListAt (fields : List (String × Json)) : List String → List Json
  | [] => []
  | k :: ks =>
      match lookupField fields k with
      | some (Json.arr xs) => xs
      | _ => firstListAt fields ks

/-- Event-type extraction from a 2xx body (lines 334–362): structures 1–5
tried in order, each only when the previous ones produced an empty list. -/
def parseEventTypes (data : Json) : List Json :=
  let et1 : List Json :=
    match data with
    | Json.obj fs =>
        match lookupField fs "data" with
        | some (Json.arr xs) => xs
        | some (Json.obj inner) => firstListAt inner ["event_types", "eventTypes", "items"]
        | _ => []
    | _ => []
  let et2 : List Json :=
    if et1.isEmpty then
      match data with
      | Json.obj fs =>
          match lookupField fs "event_types" with
          | some (Json.arr xs) => xs
          | some _ => []
          | none => []
      | _ => []
    else et1
  let et3 : List Json :=
    if et2.isEmpty then
      match data with
      | Json.obj fs =>
          match lookupField fs "eventTypes" with
          | some (Json.arr xs) => xs
          | some _ => []
          | none => []
      | _ => []
    else et2
  let et4 : List Json :=
    if et3.isEmpty then
      match data with
      | Json.arr xs => xs
      | _ => []
    else et3
  if et4.isEmpty then
    match data with
    | Json.obj fs => firstListOfDicts fs
    | _ => []
  else et4

def v2EventTypesSpec : ReqSpec :=
  { method := "GET", url := "https://api.cal.com/v2/event-types" }

def v1EventTypesSpec (apiKey : String) : ReqSpec :=
  { method := "GET", url := "https://api.cal.com/v1/event-types?apiKey=" ++ apiKey }

/-- The dual-generation request phase of `get_event_types` (lines 277–307):
the v2 call is tried first; any failure of it — a transport error or a status
≥ 400 (which the source turns into a raised `HTTPError`) — is caught by the
`except Exception` handler, which issues the v1 call. -/
def getEventTypesLegs (apiKey : String) (backend : Backend) :
    (Except String HttpResponse) × List ReqSpec :=
  let v2 := makeRequestWithRetry backend 2 v2EventTypesSpec
  match v2.1 with
  | Except.ok r =>
      if r.status ≥ 400 then
        let v1 := makeRequestWithRetry backend 2 (v1EventTypesSpec apiKey)
        (v1.1, v2.2 ++ v1.2)
      else (Except.ok r, v2.2)
  | Except.error _ =>
      let v1 := makeRequestWithRetry backend 2 (v1EventTypesSpec apiKey)
      (v1.1, v2.2 ++ v1.2)

/-- Response handling of `get_event_types` (lines 309–394): a transport
failure that escaped both legs lands in the outer `except RequestException`;
a final status ≥ 400 is logged and reported; otherwise the body is parsed. -/
def getEventTypesHandle (st : ApiState) (res : Except String HttpResponse) :
    Json × ApiState :=
  match res with
  | Except.error msg =>
      let errMsg := "❌ Failed to fetch event types: " ++ msg
      let st := logError st "get_event_types" (Json.str errMsg) (Json.obj [])
      (Json.obj [("success", Json.bool false), ("error", Json.str errMsg),
                 ("error_details", Json.obj []), ("event_types", Json.arr [])], st)
  | Except.ok resp =>
      if resp.status ≥ 400 then
        let details := Json.obj
          [("status_code", Json.num (resp.status : Int)),
           ("response_text", Json.str resp.text),
           ("api_version", Json.str (if strContains resp.url "v2" then "v2" else "v1"))]
        let st := logError st "get_event_types"
          (Json.str ("API returned " ++ toString resp.status)) details
        (Json.obj [("success", Json.bool false),
                   ("error", Json.str ("Failed to fetch event types: " ++ resp.text)),
                   ("error_details", details),
                   ("event_types", Json.arr [])], st)
      else
        (Json.obj [("success", Json.bool true),
                   ("event_types", Json.arr (parseEventTypes resp.body)),
                   ("api_version", Json.str (if strContains resp.url "v2" then "v2" else "v1"))],
         st)

/-- `get_event_types()` (lines 272–394). -/
def getEventTypes (env : Env) (apiKey : String) (st : ApiState) :
    Json × ApiState × List ReqSpec :=
  let legs := getEventTypesLegs apiKey env.backend
  let rs := getEventTypesHandle st legs.1
  (rs.1, rs.2, legs.2)

/-! ## `get_available_slots` (lines 396–652) -/

/-- `normalize_date` (lines 414–425). -/
def normalizeDate (s : String) : String :=
  if s.length == 10 && (s.toList.count '-') == 2 then s
  else if s.data.contains 'T' then String.mk (s.data.takeWhile (fun c => c != 'T'))
  else s

def v2SlotsSpec (eventTypeId : Json) (startSimple endSimple : String) : ReqSpec :=
  { method := "GET", url := "https://api.cal.com/v2/slots",
    params := Json.obj
      [("eventTypeId", eventTypeId), ("start", Json.str startSimple),
       ("end", Json.str endSimple), ("timeZone", Json.str "America/Los_Angeles")] }

def v1SlotsSpec (apiKey : String) (eventTypeId : Json) (startDate endDate : String) : ReqSpec :=
  { method := "GET", url := "https://api.cal.com/v1/slots",
    params := Json.obj
      [("apiKey", Json.str apiKey), ("eventTypeId", eventTypeId),
       ("startTime", Json.str startDate), ("endTime", Json.str endDate),
       ("timeZone", Json.str "America/Los_Angeles")] }

/-- v2 per-slot extraction (lines 550–557): `slot.get("start") or
slot.get("time")`, kept when it is a truthy string; bare strings are kept. -/
def v2SlotExtract (slot : Json) : List String :=
  match slot with
  | Json.obj _ =>
      match pyOr (slot.getKey "start") (slot.getKey "time") with
      | Json.str s => if s != "" then [s] else []
      | _ => []
  | Json.str s => [s]
  | _ => []

/-- v1 per-slot extraction (lines 584–591): `slot.get("time")`, kept when it
is a truthy string; bare strings are kept. -/
def v1SlotExtract (slot : Json) : List String :=
  match slot with
  | Json.obj _ =>
      match slot.getKey "time" with
      | Json.str s => if s != "" then [s] else []
      | _ => []
  | Json.str s => [s]
  | _ => []

/-- The per-date iteration of both main parsers (lines 546–557 and 580–591):
each date key whose value is a list contributes its extracted slots, in
order. -/
def slotsFromDateMap (extract : Json → List String) : List (String × Json) → List String
  | [] => []
  | (_, Json.arr dateSlots) :: tl =>
      dateSlots.flatMap extract ++ slotsFromDateMap extract tl
  | _ :: tl => slotsFromDateMap extract tl

/-- Key collection step of the generic tree walkers (lines 561–565 and
595–599): the values of the given keys that are strings, in key order. -/
def collectKeys (keys : List String) (fs : List (String × Json)) : List String :=
  keys.filterMap (fun k =>
    match lookupField fs k with
    | some (Json.str s) => some s
    | _ => none)

mutual

/-- The generic fallback walkers `walk_v2`/`walk_v1` (lines 561–572 and
595–606), parameterised by their key list. -/
def walkSlots (keys : List String) : Json → List String
  | Json.obj fs => collectKeys keys fs ++ walkFieldsSlots keys fs
  | Json.arr xs => walkListSlots keys xs
  | _ => []

def walkFieldsSlots (keys : List String) : List (String × Json) → List String
  | [] => []
  | (_, v) :: tl => walkSlots keys v ++ walkFieldsSlots keys tl

def walkListSlots (keys : List String) : List Json → List String
  | [] => []
  | v :: tl => walkSlots keys v ++ walkListSlots keys tl

end

/-- v2 response parsing (lines 539–572). -/
def parseSlotsV2 (data : Json) : List String :=
  if (data.getKey "status") == Json.str "success" then
    match data.getKeyD "data" (Json.obj []) with
    | Json.obj fs => slotsFromDateMap v2SlotExtract fs
    | _ => []
  else walkSlots ["start", "time", "startTime"] data

/-- v1 response parsing (lines 577–606). -/
def parseSlotsV1 (data : Json) : List String :=
  match data with
  | Json.obj fs =>
      match lookupField fs "slots" with
      | some slotsData =>
          match slotsData with
          | Json.obj sfs => slotsFromDateMap v1SlotExtract sfs
          | _ => []
      | none => walkSlots ["time", "start", "startTime"] data
  | _ => walkSlots ["time", "start", "startTime"] data

/-- `list(dict.fromkeys(slots))` (line 609): deduplicate while preserving
first-occurrence order. -/
def dedupeGo (seen : List String) : List String → List String
  | [] => []
  | x :: tl =>
      if seen.contains x then dedupeGo seen tl
      else x :: dedupeGo (seen ++ [x]) tl

def dedupeKeepFirst (xs : List String) : List String := dedupeGo [] xs

/-- The dual-generation request phase of `get_available_slots` (lines
427–503): any v2 failure — a 4xx (raised as `HTTPError` with a suggestion),
a 5xx (likewise raised) or a transport error — is caught by the
`except Exception` handler, which issues the v1 call with the original
ISO-date parameters. -/
def getAvailableSlotsLegs (apiKey : String) (backend : Backend)
    (eventTypeId : Json) (startDate endDate : String) :
    (Except String HttpResponse) × List ReqSpec :=
  let v2 := makeRequestWithRetry backend 2
    (v2SlotsSpec eventTypeId (normalizeDate startDate) (normalizeDate endDate))
  match v2.1 with
  | Except.ok r =>
      if r.status ≥ 400 then
        let v1 := makeRequestWithRetry backend 2 (v1SlotsSpec apiKey eventTypeId startDate endDate)
        (v1.1, v2.2 ++ v1.2)
      else (Except.ok r, v2.2)
  | Except.error _ =>
      let v1 := makeRequestWithRetry backend 2 (v1SlotsSpec apiKey eventTypeId startDate endDate)
      (v1.1, v2.2 ++ v1.2)

/-- Response handling of `get_available_slots` (lines 505–652). -/
def getAvailableSlotsHandle (eventTypeId : Json) (startDate endDate : String)
    (res : Except String HttpResponse) : Json :=
  match res with
  | Except.error msg =>
      (Json.obj [("success", Json.bool false), ("error", Json.str msg),
                 ("error_details", Json.obj []), ("slots", Json.arr []),
                 ("suggestion", Json.str "Make sure your Cal.com event type has availability hours set up and the date is within your availability window")])
  | Except.ok resp =>
      if resp.status ≥ 400 then
        let details := Json.obj
          [("status_code", Json.num (resp.status : Int)),
           ("response_text", Json.str resp.text),
           ("event_type_id", eventTypeId),
           ("date_range", Json.str (startDate ++ " to " ++ endDate)),
           ("api_version", Json.str (if strContains resp.url "v2" then "v2" else "v1"))]
        (Json.obj [("success", Json.bool false),
                   ("error", Json.str ("Failed to fetch slots: " ++ resp.text)),
                   ("error_details", details), ("slots", Json.arr []),
                   ("suggestion", Json.str "Check that your Cal.com event type has availability configured and the date is within your availability window")])
      else
        let isV2 := strContains resp.url "v2"
        let slots := if isV2 then parseSlotsV2 resp.body else parseSlotsV1 resp.body
        let slots := dedupeKeepFirst slots
        (Json.obj [("success", Json.bool true),
                   ("slots", Json.arr (slots.map Json.str)),
                   ("count", Json.num (slots.length : Int)),
                   ("event_type_id", eventTypeId),
                   ("api_version", Json.str (if isV2 then "v2" else "v1"))])

/-- `get_available_slots(event_type_id, start_date, end_date)` (lines
396–652).  The operation does not touch the adapter state (it never calls
`_log_error`). -/
def getAvailableSlots (env : Env) (apiKey : String)
    (eventTypeId : Json) (startDate endDate : String) : Json × List ReqSpec :=
  let legs := getAvailableSlotsLegs apiKey env.backend eventTypeId startDate endDate
  (getAvailableSlotsHandle eventTypeId startDate endDate legs.1, legs.2)

/-! ## `get_bookings` (lines 865–1057) -/

def v2BookingsSpec (params : Json) : ReqSpec :=
  { method := "GET", url := "https://api.cal.com/v2/bookings", params := params }

def v1BookingsSpec (apiKey : String) (params : List (String × Json)) : ReqSpec :=
  { method := "GET", url := "https://api.cal.com/v1/bookings",
    params := Json.obj (params ++ [("apiKey", Json.str apiKey)]) }

/-- Booking-list extraction from the raw body (lines 903–918): direct array,
`data` array, `data.bookings` array, `bookings` array, then the generic
first-list-of-dicts fallback, following the `elif` chain exactly. -/
def parseBookingsList (raw : Json) : List Json :=
  match raw with
  | Json.arr xs => xs
  | Json.obj fs =>
      match (Json.obj fs).getKey "data" with
      | Json.arr xs => xs
      | dataV =>
          let viaDataBookings : Option (List Json) :=
            match dataV with
            | Json.obj dfs =>
                match lookupField dfs "bookings" with
                | some (Json.arr xs) => some xs
                | _ => none
            | _ => none
          match viaDataBookings with
          | some xs => xs
          | none =>
              match (Json.obj fs).getKey "bookings" with
              | Json.arr xs => xs
              | _ => firstListOfDicts fs
  | _ => []

/-- The attendee list of a booking (lines 924–926 and 1008–1010):
`b.get("attendees") or b.get("attendee") or []`, with a bare dictionary
wrapped in a singleton list.  Other truthy shapes would raise when iterated
in Python and cannot occur in backend data; they yield `[]` here. -/
def attendeesOf (b : Json) : List Json :=
  match pyOr (pyOr (b.getKey "attendees") (b.getKey "attendee")) (Json.arr []) with
  | Json.obj fs => [Json.obj fs]
  | Json.arr xs => xs
  | _ => []

/-- `booking_matches_attendee` (lines 921–936). -/
def bookingMatchesAttendee (attendeeEmail attendeeName : Option String) (b : Json) : Bool :=
  if !(optTruthy attendeeEmail) && !(optTruthy attendeeName) then true
  else
    (attendeesOf b).any (fun a =>
      let aEmail := strLower (pyStr (a.getKeyD "email" (Json.str "")))
      let aName := strLower (pyStr (a.getKeyD "name" (Json.str "")))
      (match attendeeEmail with
       | some e => e != "" && aEmail == strLower e
       | none => false)
      ||
      (match attendeeName with
       | some nm =>
           nm != "" && (aName == strLower nm || strContains aName (strLower nm))
       | none => false))

/-- `find_preferred` inside `first_url_from` (lines 953–961): keys are
lowered — later duplicates overwrite earlier ones in the comprehension — and
the first preferred key bound to a string starting with "http" wins. -/
def findPreferred (prefer : List String) (d : Json) : Option String :=
  match d with
  | Json.obj fs =>
      let lowerMap := fs.map (fun p => (strLower p.1, p.2))
      prefer.findSome? (fun key =>
        match ((lowerMap.filter (fun p => p.1 == strLower key)).getLast?).map Prod.snd with
        | some (Json.str v) => if strStartsWith v "http" then some v else none
        | _ => none)
  | _ => none

/-- `first_url_from` (lines 941–999): preferred keys at top level, then in
known containers, then in shallow nested dictionaries, then (optionally) any
top-level or shallow-nested `*url*`/`*link*` string. -/
def firstUrlFrom (bookingDict : Json) (prefer : List String)
    (allowGenericFallback : Bool) : Option String :=
  match findPreferred prefer bookingDict with
  | some u => some u
  | none =>
      let fields := match bookingDict with | Json.obj fs => fs | _ => []
      match ["links", "link", "urls", "url", "data"].findSome? (fun ck =>
          match bookingDict.getKey ck with
          | Json.obj nfs => findPreferred prefer (Json.obj nfs)
          | _ => none) with
      | some u => some u
      | none =>
          match fields.findSome? (fun p =>
              match p.2 with
              | Json.obj nfs => findPreferred prefer (Json.obj nfs)
              | _ => none) with
          | some u => some u
          | none =>
              if allowGenericFallback then
                match fields.findSome? (fun p =>
                    match p.2 with
                    | Json.str v =>
                        if (strContains (strLower p.1) "url" || strContains (strLower p.1) "link")
                            && strStartsWith v "http" then some v else none
                    | _ => none) with
                | some u => some u
                | none =>
                    fields.findSome? (fun p =>
                      match p.2 with
                      | Json.obj nfs =>
                          nfs.findSome? (fun q =>
                            match q.2 with
                            | Json.str v2 =>
                                if (strContains (strLower q.1) "url" || strContains (strLower q.1) "link")
                                    && strStartsWith v2 "http" then some v2 else none
                            | _ => none)
                      | _ => none)
              else none

/-- Dictionary assignment `d[k] = v`: update in place, or append a new key.
On non-dictionaries (unreachable for schema data) the value is unchanged. -/
def setField (j : Json) (k : String) (v : Json) : Json :=
  match j with
  | Json.obj fs =>
      if fs.any (fun p => p.1 == k) then
        Json.obj (fs.map (fun p => if p.1 == k then (k, v) else p))
      else Json.obj (fs ++ [(k, v)])
  | other => other

def bookingUrlPrefer : List String :=
  ["meetingUrl", "joinUrl", "join_url", "bookingUrl", "eventPageUrl",
   "statusPageUrl", "booking_url", "meeting_link"]

/-- The per-booking enrichment loop body (lines 1001–1048). -/
def enrichBooking (env : Env) (attendeeEmail : Option String) (b : Json) : Json :=
  let b := match b with
    | Json.obj fs =>
        match lookupField fs "start" with
        | some (Json.str s) => setField b "start_pst" (Json.str (env.fmtPst s))
        | some v => setField b "start_pst" v   -- format_time_pst returns its input on failure
        | none => b
    | _ => b
  let b := setField b "display_uid" (pyOr (b.getKey "uid") (b.getKeyD "id" (Json.str "N/A")))
  let attendees := attendeesOf b
  let byEmail : Option Json :=
    match attendeeEmail with
    | some e =>
        if e != "" then
          attendees.find? (fun a => strLower (pyStr (a.getKeyD "email" (Json.str ""))) == strLower e)
        else none
    | none => none
  let primary : Option Json :=
    match byEmail with
    | some a => some a
    | none => attendees.head?
  let b := match primary with
    | some (Json.obj pfs) =>
        let b := setField b "primary_attendee_email" ((Json.obj pfs).getKey "email")
        setField b "primary_attendee_name" ((Json.obj pfs).getKey "name")
    | _ => b
  let b := setField b "booking_url" (optJson (firstUrlFrom b bookingUrlPrefer false))
  let b := setField b "reschedule_url"
    (optJson (firstUrlFrom b ["rescheduleUrl", "rescheduleLink", "reschedule"] false))
  setField b "cancel_url" (optJson (firstUrlFrom b ["cancelUrl", "cancelLink", "cancel"] false))

/-- The dual-generation request phase of `get_bookings` (lines 874–897): any
v2 failure (status ≥ 400 raised as `HTTPError`, or a transport error) falls
back to the v1 call. -/
def getBookingsLegs (apiKey : String) (backend : Backend) (params : List (String × Json)) :
    (Except String HttpResponse) × List ReqSpec :=
  let v2 := makeRequestWithRetry backend 2 (v2BookingsSpec (Json.obj params))
  match v2.1 with
  | Except.ok r =>
      if r.status ≥ 400 then
        let v1 := makeRequestWithRetry backend 2 (v1BookingsSpec apiKey params)
        (v1.1, v2.2 ++ v1.2)
      else (Except.ok r, v2.2)
  | Except.error _ =>
      let v1 := makeRequestWithRetry backend 2 (v1BookingsSpec apiKey params)
      (v1.1, v2.2 ++ v1.2)

/-- Message of the `HTTPError` raised by `response.raise_for_status()`
(line 899); requests renders status, reason and URL, which is
library-internal, so the rendering is schematic. -/
def raiseForStatusMsg (r : HttpResponse) : String :=
  toString r.status ++ " Error for url: " ++ r.url

/-- Response handling of `get_bookings` (lines 899–1057): a status ≥ 400
raises in `raise_for_status` and lands — like transport failures — in the
outer `except RequestException`, which reports failure with an empty list. -/
def getBookingsHandle (env : Env) (attendeeEmail attendeeName : Option String)
    (res : Except String HttpResponse) : Json :=
  match res with
  | Except.error msg =>
      (Json.obj [("success", Json.bool false),
                 ("error", Json.str ("❌ Failed to get bookings: " ++ msg)),
                 ("bookings", Json.arr [])])
  | Except.ok resp =>
      if resp.status ≥ 400 then
        let msg := "❌ Failed to get bookings: " ++ raiseForStatusMsg resp
          ++ "\nStatus: " ++ toString resp.status ++ "\nResponse: " ++ resp.text
        (Json.obj [("success", Json.bool false), ("error", Json.str msg),
                   ("bookings", Json.arr [])])
      else
        let bookings := parseBookingsList resp.body
        let bookings := bookings.filter (bookingMatchesAttendee attendeeEmail attendeeName)
        let bookings := bookings.map (enrichBooking env attendeeEmail)
        (Json.obj [("success", Json.bool true), ("bookings", Json.arr bookings),
                   ("count", Json.num (bookings.length : Int))])

/-- `get_bookings(attendee_email, attendee_name)` (lines 865–1057).  The
operation does not touch the adapter state (it never calls `_log_error`). -/
def getBookings (env : Env) (apiKey : String)
    (attendeeEmail attendeeName : Option String) : Json × List ReqSpec :=
  let params : List (String × Json) :=
    if optTruthy attendeeEmail then [("attendeeEmail", Json.str (attendeeEmail.getD ""))] else []
  let legs := getBookingsLegs apiKey env.backend params
  (getBookingsHandle env attendeeEmail attendeeName legs.1, legs.2)

/-! ## `_resolve_booking_uid` (lines 1059–1122) and `cancel_booking`
(lines 1124–1229) -/

def v2BookingFetchSpec (bid : String) : ReqSpec :=
  { method := "GET", url := "https://api.cal.com/v2/bookings/" ++ bid }

def v1BookingFetchSpec (apiKey bid : String) : ReqSpec :=
  { method := "GET", url := "https://api.cal.com/v1/bookings/" ++ bid,
    params := Json.obj [("apiKey", Json.str apiKey)] }

/-- UID extraction from a direct-fetch outcome (lines 1083–1089 and
1103–1109): on a < 400 reply, `node = data.get("data", data)` when the body
is a dictionary, and `node.get("uid") or node.get("bookingUid")` when truthy;
exceptions (transport failures) are swallowed by `except: pass`. -/
def uidFromFetch (res : Except String HttpResponse) : Option String :=
  match res with
  | Except.error _ => none
  | Except.ok r =>
      if r.status < 400 then
        let node := match r.body with
          | Json.obj _ => r.body.getKeyD "data" r.body
          | _ => Json.obj []
        match node with
        | Json.obj _ =>
            let uidVal := pyOr (node.getKey "uid") (node.getKey "bookingUid")
            if uidVal.truthy then some (pyStr uidVal) else none
        | _ => none
      else none

/-- `_resolve_booking_uid(booking_uid, booking_id)`: a truthy UID is returned
directly; otherwise the id is resolved by v2 direct fetch, then v1 direct
fetch, then a linear scan of `get_bookings()`.  Returns the resolved UID (or
`none`) together with the requests issued. -/
def resolveBookingUid (env : Env) (apiKey : String)
    (bookingUid bookingId : Option String) : Option String × List ReqSpec :=
  if optTruthy bookingUid then (some (pyStrOpt bookingUid), [])
  else if !(optTruthy bookingId) then (none, [])
  else
    let bid := pyStrOpt bookingId
    let v2 := makeRequestWithRetry env.backend 2 (v2BookingFetchSpec bid)
    match uidFromFetch v2.1 with
    | some u => (some u, v2.2)
    | none =>
        let v1 := makeRequestWithRetry env.backend 2 (v1BookingFetchSpec apiKey bid)
        match uidFromFetch v1.1 with
        | some u => (some u, v2.2 ++ v1.2)
        | none =>
            let lst := getBookings env apiKey none none
            let bookings := match (lst.1.getKey "bookings") with
              | Json.arr xs => xs
              | _ => []
            let found := bookings.findSome? (fun b =>
              if pyStr (b.getKey "id") == bid && (b.getKey "uid").truthy then
                some (pyStr (b.getKey "uid"))
              else none)
            (found, v2.2 ++ v1.2 ++ lst.2)

def v2CancelSpec (token reason : String) : ReqSpec :=
  { method := "POST", url := "https://api.cal.com/v2/bookings/" ++ token ++ "/cancel",
    body := Json.obj [("cancellationReason", Json.str reason)] }

def v1CancelSpec (apiKey token reason : String) : ReqSpec :=
  { method := "DELETE", url := "https://api.cal.com/v1/bookings/" ++ token,
    params := Json.obj [("apiKey", Json.str apiKey), ("cancellationReason", Json.str reason)] }

/-- The common tail of `cancel_booking` (lines 1187–1216): a status ≥ 400 is
logged and reported; otherwise success with `result_json.get("data",
result_json)`. -/
def cancelHandleResponse (st : ApiState) (resolvedUid : Option String)
    (pathToken : String) (resp : HttpResponse) : Json × ApiState :=
  if resp.status ≥ 400 then
    let details := Json.obj
      [("status_code", Json.num (resp.status : Int)),
       ("response_text", Json.str resp.text),
       ("booking_uid", optJson resolvedUid),
       ("requested_token", Json.str pathToken),
       ("api_version", Json.str (if strContains resp.url "/v2/" then "v2" else "v1"))]
    let st := logError st "cancel_booking" (Json.str "Cancellation failed") details
    (Json.obj [("success", Json.bool false),
               ("error", Json.str ("Cancellation failed: " ++ strTake resp.text 500)),
               ("error_details", details)], st)
  else
    (Json.obj [("success", Json.bool true),
               ("message", Json.str ("Booking " ++ pathToken ++ " cancelled")),
               ("data", resp.body.getKeyD "data" resp.body)], st)

/-- The outer `except RequestException` of `cancel_booking` (lines
1217–1229) for transport failures, which carry no response. -/
def cancelTransportFailure (st : ApiState) (msg : String) : Json × ApiState :=
  let errMsg := "❌ Failed to cancel: " ++ msg
  let st := logError st "cancel_booking" (Json.str errMsg) (Json.obj [])
  (Json.obj [("success", Json.bool false), ("error", Json.str errMsg),
             ("error_details", Json.obj [])], st)

/-- `cancel_booking(booking_uid, booking_id, reason)` (lines 1124–1229).
The UID is resolved first; `path_token = resolved_uid or (booking_uid or
booking_id)` falls back to the raw id when resolution fails.  The v2 cancel
is tried first; a 4xx is terminal (no fallback); a 5xx raises `HTTPError`,
which is the only exception the fallback handler catches, so transport
failures go straight to the outer handler without attempting v1. -/
def cancelBooking (env : Env) (apiKey : String) (st : ApiState)
    (bookingUid bookingId : Option String) (reason : String) :
    Json × ApiState × List ReqSpec :=
  let res := resolveBookingUid env apiKey bookingUid bookingId
  let resolvedUid := res.1
  let pathToken := pyStrOpt (pyOrOptStr resolvedUid (pyOrOptStr bookingUid bookingId))
  let v2 := makeRequestWithRetry env.backend 2 (v2CancelSpec pathToken reason)
  match v2.1 with
  | Except.error msg =>
      let rs := cancelTransportFailure st msg
      (rs.1, rs.2, res.2 ++ v2.2)
  | Except.ok r =>
      if 400 ≤ r.status ∧ r.status < 500 then
        let details := Json.obj
          [("status_code", Json.num (r.status : Int)),
           ("response_text", Json.str r.text),
           ("booking_uid", optJson resolvedUid),
           ("requested_token", Json.str pathToken),
           ("api_version", Json.str "v2")]
        let st := logError st "cancel_booking" (Json.str "Client error - check booking UID") details
        (Json.obj [("success", Json.bool false),
                   ("error", Json.str ("Cannot cancel booking: " ++ strTake r.text 500)),
                   ("error_details", details),
                   ("suggestion", Json.str "Check that the booking UID is correct and the booking exists")],
         st, res.2 ++ v2.2)
      else if r.status ≥ 500 then
        let v1 := makeRequestWithRetry env.backend 2 (v1CancelSpec apiKey pathToken reason)
        match v1.1 with
        | Except.error msg =>
            let rs := cancelTransportFailure st msg
            (rs.1, rs.2, res.2 ++ v2.2 ++ v1.2)
        | Except.ok r1 =>
            let rs := cancelHandleResponse st resolvedUid pathToken r1
            (rs.1, rs.2, res.2 ++ v2.2 ++ v1.2)
      else
        let rs := cancelHandleResponse st resolvedUid pathToken r
        (rs.1, rs.2, res.2 ++ v2.2)

/-! ## `create_booking` (lines 654–863) -/

def v2CreateSpec (payload : Json) : ReqSpec :=
  { method := "POST", url := "https://api.cal.com/v2/bookings", body := payload }

def v1CreateSpec (apiKey : String) (payload : Json) : ReqSpec :=
  { method := "POST", url := "https://api.cal.com/v1/bookings?apiKey=" ++ apiKey,
    body := payload }

/-- The deduplication key (line 667):
`f"{event_type_id}:{start_time}:{attendee_email}"`. -/
def bookingKeyOf (eventTypeId : Json) (startTime : String) (attendeeEmail : Json) : String :=
  pyStr eventTypeId ++ ":" ++ startTime ++ ":" ++ pyStr attendeeEmail

/-- The booking payload (lines 684–696). -/
def buildBookingPayload (eventTypeId : Json) (startTime : String)
    (attendeeEmail attendeeName : Json) (attendeeTimezone attendeeLanguage : String)
    (meetingReason : String) : Json :=
  Json.obj
    ([("eventTypeId", eventTypeId),
      ("start", Json.str startTime),
      ("attendee", Json.obj
        [("name", attendeeName), ("email", attendeeEmail),
         ("timeZone", Json.str attendeeTimezone),
         ("language", Json.str attendeeLanguage)])]
     ++ (if meetingReason != "" then
           [("metadata", Json.obj [("reason", Json.str meetingReason)])]
         else []))

/-- `error_message` assembly for a ≥ 400 creation response (lines 766–803):
parsed message fields, then nested `data` fields, then an `errors` list, then
the fixed overrides for 409/422/429/5xx. -/
def createErrorMessage (status : Nat) (body : Json) : Json :=
  let parsed : Json :=
    match body with
    | Json.obj _ =>
        let m0 := pyOr (pyOr (body.getKey "message") (body.getKey "error"))
                       (pyOr (body.getKey "errorMessage") (Json.str "Unknown error"))
        let m1 :=
          match body.getKey "data" with
          | Json.obj innerFs =>
              let nested := pyOr (pyOr ((Json.obj innerFs).getKey "message")
                                       ((Json.obj innerFs).getKey "error"))
                                 ((Json.obj innerFs).getKey "errorMessage")
              if nested.truthy then nested else m0
          | _ => m0
        match body.getKey "errors" with
        | Json.arr errs =>
            Json.str ("Validation errors: " ++ String.intercalate ", " (errs.map pyStr))
        | _ => m1
    | _ => Json.str "Unknown error"
  if status == 409 then Json.str "Time slot is no longer available. Please try a different time."
  else if status == 422 then Json.str "Invalid booking data. Please check your meeting details."
  else if status == 429 then Json.str "Too many requests. Please wait a moment and try again."
  else if status ≥ 500 then Json.str "Cal.com server error. Please try again in a few minutes."
  else parsed

/-- Removal of the booking key from `_processing_bookings` (membership is
checked before `remove`, so absent keys are left alone). -/
def releaseKey (st : ApiState) (key : String) : ApiState :=
  { st with processing := st.processing.map (fun ks => ks.erase key) }

/-- The dual-generation request phase of `create_booking` (lines 717–752):
any v2 failure (status ≥ 400 raised as `HTTPError`, or a transport error) is
caught by `except Exception`, which issues the v1 call. -/
def createBookingLegs (apiKey : String) (backend : Backend) (payload : Json) :
    (Except String HttpResponse) × List ReqSpec :=
  let v2 := makeRequestWithRetry backend 3 (v2CreateSpec payload)
  match v2.1 with
  | Except.ok r =>
      if r.status ≥ 400 then
        let v1 := makeRequestWithRetry backend 3 (v1CreateSpec apiKey payload)
        (v1.1, v2.2 ++ v1.2)
      else (Except.ok r, v2.2)
  | Except.error _ =>
      let v1 := makeRequestWithRetry backend 3 (v1CreateSpec apiKey payload)
      (v1.1, v2.2 ++ v1.2)

/-- `create_booking(...)` (lines 654–863).  Control flow mirrored exactly:

* duplicate-in-flight check before anything else (lines 670–681); the set is
  created lazily and the key added before any network call;
* validation failure returns at line 707 — *before* the `try/finally` that
  releases the key, so the key stays in the set (source defect, claim C4);
* an HTTP error response returns at lines 808–814, likewise without
  releasing the key;
* the success-handling block (lines 820–841) carries the only `finally`; its
  success `return` sits inside `if not booking_data` (line 822), so a 2xx
  body with a populated `data` object falls off the end of the function and
  Python returns `None` (source defect, claim C6);
* the outer `except RequestException` (lines 843–863) releases the key
  explicitly and reports the transport failure. -/
def createBooking (env : Env) (apiKey : String) (st : ApiState)
    (eventTypeId : Json) (startTime : String) (attendeeEmail attendeeName : Json)
    (attendeeTimezone attendeeLanguage meetingReason : String) :
    Option Json × ApiState × List ReqSpec :=
  let bookingKey := bookingKeyOf eventTypeId startTime attendeeEmail
  let dup : Bool := match st.processing with
    | some ks => ks.contains bookingKey
    | none => false
  if dup then
    (some (Json.obj
      [("success", Json.bool false),
       ("error", Json.str "This booking is already being processed. Please wait..."),
       ("duplicate_request", Json.bool true)]), st, [])
  else
    let st := { st with processing := some ((st.processing.getD []) ++ [bookingKey]) }
    let payload := buildBookingPayload eventTypeId startTime attendeeEmail attendeeName
      attendeeTimezone attendeeLanguage meetingReason
    let validation := validateBookingPayload env.isoOk payload
    if !validation.valid then
      (some (Json.obj
        [("success", Json.bool false),
         ("error", Json.str ("❌ Invalid booking payload: "
            ++ String.intercalate ", " validation.errors)),
         ("validation_errors", Json.arr (validation.errors.map Json.str))]),
       st, [])
    else
      let legs := createBookingLegs apiKey env.backend payload
      match legs.1 with
      | Except.error msg =>
          let errMsg := "❌ Failed to create booking: " ++ msg
          (some (Json.obj
            [("success", Json.bool false), ("error", Json.str errMsg),
             ("error_details", Json.obj [])]),
           releaseKey st bookingKey, legs.2)
      | Except.ok resp =>
          if resp.status ≥ 400 then
            let details := Json.obj
              [("status_code", Json.num (resp.status : Int)),
               ("response_text", Json.str resp.text),
               ("request_payload", payload),
               ("api_version", Json.str (if strContains resp.url "v2" then "v2" else "v1"))]
            let errorMessage := createErrorMessage resp.status resp.body
            let st := logError st "create_booking" errorMessage details
            (some (Json.obj
              [("success", Json.bool false),
               ("error", Json.str ("Booking failed: " ++ pyStr errorMessage)),
               ("error_details", details),
               ("status_code", Json.num (resp.status : Int)),
               ("retry_suggested", Json.bool (resp.status ≥ 500))]),
             st, legs.2)
          else
            let outcome : Option Json :=
              match resp.body with
              | Json.obj _ =>
                  let bookingData := resp.body.getKeyD "data" (Json.obj [])
                  if !bookingData.truthy then
                    some (Json.obj
                      [("success", Json.bool true),
                       ("data", resp.body),
                       ("booking_id", resp.body.getKey "id"),
                       ("booking_uid", resp.body.getKey "uid"),
                       ("api_version", Json.str (if strContains resp.url "v2" then "v2" else "v1"))])
                  else none
              | _ =>
                  -- `result.get` on a non-dictionary body raises AttributeError,
                  -- caught at line 834 (Python renders quotes in the message)
                  some (Json.obj
                    [("success", Json.bool false),
                     ("error", Json.str "AttributeError: response body is not an object")])
            (outcome, releaseKey st bookingKey, legs.2)

/-! ## `reschedule_booking` (lines 1232–1391) -/

def reschedulePayload (newStartTime reason : String) : Json :=
  Json.obj ([("start", Json.str newStartTime)]
    ++ (if reason != "" then [("reschedulingReason", Json.str reason)] else []))

def v2RescheduleSpec (token : String) (payload : Json) : ReqSpec :=
  { method := "POST", url := "https://api.cal.com/v2/bookings/" ++ token ++ "/reschedule",
    body := payload }

def reschedFailGenPrefix : String := "Reschedule failed on both v2 and v1: "

def cancelStepFailMarker : String := "Failed to cancel original booking: "

def createStepFailMarker : String := "Failed to create new booking: "

/-- The failure tail of the compensating-transaction branch (lines
1350–1362): every exception raised inside it is logged and wrapped as
`"Reschedule failed on both v2 and v1: " + str(e)`. -/
def rescheduleFallbackFailure (st : ApiState) (resolvedUid : Option String)
    (pathToken emsg : String) : Json × ApiState :=
  let details := Json.obj
    [("error", Json.str emsg), ("booking_uid", optJson resolvedUid),
     ("requested_token", Json.str pathToken)]
  let st := logError st "reschedule_booking" (Json.str "V1 fallback failed") details
  (Json.obj [("success", Json.bool false),
             ("error", Json.str (reschedFailGenPrefix ++ emsg)),
             ("error_details", details)], st)

/-- The compensating-transaction fallback of `reschedule_booking` (lines
1285–1362), entered when the v2 reschedule raised `HTTPError` (a 5xx): fetch
the bookings, find the original by UID or id, cancel it, then create a new
booking at the new time.  Each `raise` inside the branch lands in the
`except Exception` tail and is reported through
`rescheduleFallbackFailure`. -/
def rescheduleFallback (env : Env) (apiKey : String) (st : ApiState)
    (resolvedUid : Option String) (pathToken newStartTime reason : String) :
    Json × ApiState × List ReqSpec :=
  let br := getBookings env apiKey none none
  let trace0 := br.2
  if !(br.1.getKey "success").truthy then
    let rs := rescheduleFallbackFailure st resolvedUid pathToken
      "Could not fetch booking details for v1 reschedule"
    (rs.1, rs.2, trace0)
  else
    let bookings := match br.1.getKey "bookings" with
      | Json.arr xs => xs
      | _ => []
    match bookings.find? (fun b =>
        (b.getKey "uid") == Json.str pathToken || pyStr (b.getKey "id") == pathToken) with
    | none =>
        let rs := rescheduleFallbackFailure st resolvedUid pathToken
          ("Could not find booking " ++ pathToken)
        (rs.1, rs.2, trace0)
    | some ob =>
        let eventTypeId := ob.getKey "eventTypeId"
        match ob.getKeyD "attendees" (Json.arr []) with
        | Json.arr (a :: _) =>
            let aEmail := a.getKey "email"
            let aName := a.getKey "name"
            let c := cancelBooking env apiKey st (some pathToken) none
              (if reason != "" then reason else "Rescheduling to new time")
            let stC := c.2.1
            let traceC := trace0 ++ c.2.2
            if !(c.1.getKey "success").truthy then
              let rs := rescheduleFallbackFailure stC resolvedUid pathToken
                (cancelStepFailMarker ++ pyStr (c.1.getKey "error"))
              (rs.1, rs.2, traceC)
            else
              let nb := createBooking env apiKey stC eventTypeId newStartTime aEmail aName
                "America/Los_Angeles" "en"
                (if reason != "" then reason else "Rescheduled meeting")
              let stN := nb.2.1
              let traceN := traceC ++ nb.2.2
              match nb.1 with
              | none =>
                  -- create_booking returned None (claim C6); calling `.get` on it
                  -- raises AttributeError (Python renders quotes in the message)
                  let rs := rescheduleFallbackFailure stN resolvedUid pathToken
                    "AttributeError: NoneType object has no attribute get"
                  (rs.1, rs.2, traceN)
              | some nbr =>
                  if !(nbr.getKey "success").truthy then
                    let rs := rescheduleFallbackFailure stN resolvedUid pathToken
                      (createStepFailMarker ++ pyStr (nbr.getKey "error"))
                    (rs.1, rs.2, traceN)
                  else
                    (Json.obj [("success", Json.bool true),
                               ("message", Json.str "Booking rescheduled (via cancel + create)"),
                               ("data", nbr.getKeyD "data" (Json.obj [])),
                               ("api_version", Json.str "v1-cancel-create"),
                               ("new_booking_uid", nbr.getKey "booking_uid")],
                     stN, traceN)
        | v =>
            if !v.truthy then
              let rs := rescheduleFallbackFailure st resolvedUid pathToken
                "No attendees found in original booking"
              (rs.1, rs.2, trace0)
            else
              -- `attendees[0]` on a non-list truthy value raises (KeyError on a
              -- dictionary: `str(e)` is "0"); unreachable for schema bookings
              let rs := rescheduleFallbackFailure st resolvedUid pathToken "0"
              (rs.1, rs.2, trace0)

/-- `reschedule_booking(booking_uid, booking_id, new_start_time, reason)`
(lines 1232–1391).  The v2 reschedule is tried first; a 4xx is terminal; a
5xx raises `HTTPError` — the only exception the fallback handler catches —
and enters the compensating transaction; transport failures go to the outer
handler without any fallback. -/
def rescheduleBooking (env : Env) (apiKey : String) (st : ApiState)
    (bookingUid bookingId : Option String) (newStartTime reason : String) :
    Json × ApiState × List ReqSpec :=
  let res := resolveBookingUid env apiKey bookingUid bookingId
  let resolvedUid := res.1
  let pathToken := pyStrOpt (pyOrOptStr resolvedUid (pyOrOptStr bookingUid bookingId))
  let payload := reschedulePayload newStartTime reason
  let v2 := makeRequestWithRetry env.backend 2 (v2RescheduleSpec pathToken payload)
  match v2.1 with
  | Except.error msg =>
      let errMsg := "❌ Failed to reschedule: " ++ msg
      let st := logError st "reschedule_booking" (Json.str errMsg) (Json.obj [])
      (Json.obj [("success", Json.bool false), ("error", Json.str errMsg),
                 ("error_details", Json.obj [])], st, res.2 ++ v2.2)
  | Except.ok r =>
      if 400 ≤ r.status ∧ r.status < 500 then
        let details := Json.obj
          [("status_code", Json.num (r.status : Int)),
           ("response_text", Json.str r.text),
           ("booking_uid", optJson resolvedUid),
           ("requested_token", Json.str pathToken),
           ("api_version", Json.str "v2")]
        let st := logError st "reschedule_booking" (Json.str "Client error") details
        (Json.obj [("success", Json.bool false),
                   ("error", Json.str ("Cannot reschedule: " ++ strTake r.text 500)),
                   ("error_details", details),
                   ("suggestion", Json.str "Check that the booking UID is correct and the new time is available")],
         st, res.2 ++ v2.2)
      else if r.status ≥ 500 then
        let fb := rescheduleFallback env apiKey st resolvedUid pathToken newStartTime reason
        (fb.1, fb.2.1, res.2 ++ v2.2 ++ fb.2.2)
      else
        (Json.obj [("success", Json.bool true),
                   ("message", Json.str ("Booking " ++ pathToken ++ " rescheduled")),
                   ("data", r.body.getKeyD "data" r.body),
                   ("api_version", Json.str "v2")], st, res.2 ++ v2.2)

/-! ## Category resolution in the dispatcher (`execute_function`,
"create_booking" branch, lines 2042–2062) -/

/-- `(x or y or "").lower().strip()` on title/name/slug fields (lines
2049–2050); non-string values would raise in Python and cannot occur in
backend data — they are rendered through `pyStr` here. -/
def jLowerStrip (j : Json) : String := strTrim (strLower (pyStr j))

/-- The per-category test of the matching loop (lines 2053–2056): exact
match on title, exact match on slug, reason contained in title, or title
contained in reason. -/
def matchesReason (reasonLower : String) (et : Json) : Bool :=
  let title := jLowerStrip (pyOr (pyOr (et.getKey "title") (et.getKey "name")) (Json.str ""))
  let slug := jLowerStrip (pyOr (et.getKey "slug") (Json.str ""))
  reasonLower == title || reasonLower == slug
    || strContains title reasonLower || strContains reasonLower title

/-- The matching loop (lines 2043–2059): the first event type, in list
order, that passes `matchesReason`; no match (or a falsy reason) leaves
`matched_et = None`. -/
def matchEventType (eventTypes : List Json) (meetingReason : String) : Option Json :=
  if meetingReason != "" then
    eventTypes.find? (matchesReason (strTrim (strLower meetingReason)))
  else none

/-! ## Characterisation of the retry loop -/

/-- Failure of a generation-A call: a reply with status ≥ 400 (which the
source raises as `HTTPError`), or a transport error. -/
def outcomeFails : NetOutcome → Bool
  | NetOutcome.reply r => decide (400 ≤ r.status)
  | NetOutcome.transportError _ => true

/-- The call replied with a server error (5xx). -/
def outcomeIs5xx : NetOutcome → Bool
  | NetOutcome.reply r => decide (500 ≤ r.status)
  | NetOutcome.transportError _ => false

/-- The call replied with a client error (4xx). -/
def outcomeIs4xx : NetOutcome → Bool
  | NetOutcome.reply r => decide (400 ≤ r.status ∧ r.status < 500)
  | NetOutcome.transportError _ => false

/-- The call failed at transport level. -/
def outcomeRaises : NetOutcome → Bool
  | NetOutcome.reply _ => false
  | NetOutcome.transportError _ => true

theorem requestAttempts_reply (r : BackendReply) :
    ∀ n, 1 ≤ n → (requestAttempts (NetOutcome.reply r) n).1 = Except.ok r := by
  intro n h
  induction n with
  | zero => omega
  | succ n ih =>
      by_cases h5 : r.status < 500
      · simp [requestAttempts, h5]
      · by_cases h0 : n = 0
        · simp [requestAttempts, h5, h0]
        · have := ih (by omega)
          simp [requestAttempts, h5, h0, this]

theorem requestAttempts_transport (m : String) :
    ∀ n, 1 ≤ n → (requestAttempts (NetOutcome.transportError m) n).1 = Except.error m := by
  intro n h
  induction n with
  | zero => omega
  | succ n ih =>
      by_cases h0 : n = 0
      · simp [requestAttempts, h0]
      · have := ih (by omega)
        simp [requestAttempts, h0, this]

theorem requestAttempts_pos (out : NetOutcome) :
    ∀ n, 1 ≤ n → 1 ≤ (requestAttempts out n).2 := by
  intro n h
  induction n with
  | zero => omega
  | succ n _ =>
      cases out with
      | reply r =>
          by_cases h5 : r.status < 500
          · simp [requestAttempts, h5]
          · by_cases h0 : n = 0
            · simp [requestAttempts, h5, h0]
            · simp [requestAttempts, h5, h0]
      | transportError m =>
          by_cases h0 : n = 0
          · simp [requestAttempts, h0]
          · simp [requestAttempts, h0]

theorem makeRequestWithRetry_reply (backend : Backend) (n : Nat) (spec : ReqSpec)
    (r : BackendReply) (h : 1 ≤ n) (hb : backend spec = NetOutcome.reply r) :
    (makeRequestWithRetry backend n spec).1 =
      Except.ok { status := r.status, url := spec.url, body := r.body, text := r.text } := by
  simp [makeRequestWithRetry, hb, requestAttempts_reply r n h, Except.map]

theorem makeRequestWithRetry_transport (backend : Backend) (n : Nat) (spec : ReqSpec)
    (m : String) (h : 1 ≤ n) (hb : backend spec = NetOutcome.transportError m) :
    (makeRequestWithRetry backend n spec).1 = Except.error m := by
  simp [makeRequestWithRetry, hb, requestAttempts_transport m n h, Except.map]

theorem mem_makeRequestWithRetry (backend : Backend) (n : Nat) (spec : ReqSpec)
    (h : 1 ≤ n) : spec ∈ (makeRequestWithRetry backend n spec).2 := by
  have hp := requestAttempts_pos (backend spec) n h
  simp only [makeRequestWithRetry]
  rw [List.mem_replicate]
  exact ⟨by omega, rfl⟩

theorem eq_of_mem_makeRequestWithRetry (backend : Backend) (n : Nat) (spec q : ReqSpec)
    (hq : q ∈ (makeRequestWithRetry backend n spec).2) : q = spec := by
  simp only [makeRequestWithRetry] at hq
  exact List.eq_of_mem_replicate hq

/-! ## Fallback-policy lemmas (claim C1) -/

theorem getEventTypesLegs_attempts_v1 (apiKey : String) (backend : Backend)
    (hf : outcomeFails (backend v2EventTypesSpec) = true) :
    v1EventTypesSpec apiKey ∈ (getEventTypesLegs apiKey backend).2 := by
  cases hbs : backend v2EventTypesSpec with
  | reply r =>
      have h4 : 400 ≤ r.status := by simpa [outcomeFails, hbs] using hf
      simp only [getEventTypesLegs,
        makeRequestWithRetry_reply backend 2 _ r (by omega) hbs]
      simp only [ge_iff_le, h4, if_true]
      exact List.mem_append_right _ (mem_makeRequestWithRetry backend 2 _ (by omega))
  | transportError m =>
      simp only [getEventTypesLegs,
        makeRequestWithRetry_transport backend 2 _ m (by omega) hbs]
      exact List.mem_append_right _ (mem_makeRequestWithRetry backend 2 _ (by omega))

theorem getAvailableSlotsLegs_attempts_v1 (apiKey : String) (backend : Backend)
    (etid : Json) (sd ed : String)
    (hf : outcomeFails (backend (v2SlotsSpec etid (normalizeDate sd) (normalizeDate ed))) = true) :
    v1SlotsSpec apiKey etid sd ed ∈ (getAvailableSlotsLegs apiKey backend etid sd ed).2 := by
  cases hbs : backend (v2SlotsSpec etid (normalizeDate sd) (normalizeDate ed)) with
  | reply r =>
      have h4 : 400 ≤ r.status := by simpa [outcomeFails, hbs] using hf
      simp only [getAvailableSlotsLegs,
        makeRequestWithRetry_reply backend 2 _ r (by omega) hbs]
      simp only [ge_iff_le, h4, if_true]
      exact List.mem_append_right _ (mem_makeRequestWithRetry backend 2 _ (by omega))
  | transportError m =>
      simp only [getAvailableSlotsLegs,
        makeRequestWithRetry_transport backend 2 _ m (by omega) hbs]
      exact List.mem_append_right _ (mem_makeRequestWithRetry backend 2 _ (by omega))

theorem getBookingsLegs_attempts_v1 (apiKey : String) (backend : Backend)
    (params : List (String × Json))
    (hf : outcomeFails (backend (v2BookingsSpec (Json.obj params))) = true) :
    v1BookingsSpec apiKey params ∈ (getBookingsLegs apiKey backend params).2 := by
  cases hbs : backend (v2BookingsSpec (Json.obj params)) with
  | reply r =>
      have h4 : 400 ≤ r.status := by simpa [outcomeFails, hbs] using hf
      simp only [getBookingsLegs,
        makeRequestWithRetry_reply backend 2 _ r (by omega) hbs]
      simp only [ge_iff_le, h4, if_true]
      exact List.mem_append_right _ (mem_makeRequestWithRetry backend 2 _ (by omega))
  | transportError m =>
      simp only [getBookingsLegs,
        makeRequestWithRetry_transport backend 2 _ m (by omega) hbs]
      exact List.mem_append_right _ (mem_makeRequestWithRetry backend 2 _ (by omega))

theorem createBookingLegs_attempts_v1 (apiKey : String) (backend : Backend) (payload : Json)
    (hf : outcomeFails (backend (v2CreateSpec payload)) = true) :
    v1CreateSpec apiKey payload ∈ (createBookingLegs apiKey backend payload).2 := by
  cases hbs : backend (v2CreateSpec payload) with
  | reply r =>
      have h4 : 400 ≤ r.status := by simpa [outcomeFails, hbs] using hf
      simp only [createBookingLegs,
        makeRequestWithRetry_reply backend 3 _ r (by omega) hbs]
      simp only [ge_iff_le, h4, if_true]
      exact List.mem_append_right _ (mem_makeRequestWithRetry backend 3 _ (by omega))
  | transportError m =>
      simp only [createBookingLegs,
        makeRequestWithRetry_transport backend 3 _ m (by omega) hbs]
      exact List.mem_append_right _ (mem_makeRequestWithRetry backend 3 _ (by omega))

/-- The v2 leg of `get_bookings` is always issued, so it appears in the
trace of `getBookingsLegs` in every branch. -/
theorem getBookingsLegs_v2_issued (apiKey : String) (backend : Backend)
    (params : List (String × Json)) :
    v2BookingsSpec (Json.obj params) ∈ (getBookingsLegs apiKey backend params).2 := by
  have hm := mem_makeRequestWithRetry backend 2 (v2BookingsSpec (Json.obj params)) (by omega)
  simp only [getBookingsLegs]
  split
  · split
    · exact List.mem_append_left _ hm
    · exact hm
  · exact List.mem_append_left _ hm

theorem resolveBookingUid_uid (env : Env) (apiKey u : String) (bid : Option String)
    (hu : u ≠ "") : resolveBookingUid env apiKey (some u) bid = (some u, []) := by
  have hu' : (u != "") = true := by simpa using hu
  simp [resolveBookingUid, optTruthy, pyStrOpt, hu']

theorem cancelBooking_5xx_attempts_v1 (env : Env) (apiKey : String) (st : ApiState)
    (u reason : String) (hu : u ≠ "")
    (h5 : outcomeIs5xx (env.backend (v2CancelSpec u reason)) = true) :
    ((cancelBooking env apiKey st (some u) none reason).2.2.any
      (fun q => q.method == "DELETE")) = true := by
  obtain ⟨r, hbs, hs⟩ :
      ∃ r, env.backend (v2CancelSpec u reason) = NetOutcome.reply r ∧ 500 ≤ r.status := by
    cases hbs : env.backend (v2CancelSpec u reason) with
    | reply r => exact ⟨r, rfl, by simpa [outcomeIs5xx, hbs] using h5⟩
    | transportError m => simp [outcomeIs5xx, hbs] at h5
  have hu' : (u != "") = true := by simpa using hu
  simp only [cancelBooking, resolveBookingUid_uid env apiKey u none hu,
    pyOrOptStr, optTruthy, hu', if_true, pyStrOpt,
    makeRequestWithRetry_reply env.backend 2 _ r (by omega) hbs]
  rw [if_neg (by simp; omega), if_pos (by simp; omega)]
  cases hv : (makeRequestWithRetry env.backend 2 (v1CancelSpec apiKey u reason)).1 with
  | error m =>
      simp only [hv, List.any_eq_true]
      exact ⟨v1CancelSpec apiKey u reason,
        List.mem_append_right _ (mem_makeRequestWithRetry env.backend 2 _ (by omega)), rfl⟩
  | ok r1 =>
      simp only [hv, List.any_eq_true]
      exact ⟨v1CancelSpec apiKey u reason,
        List.mem_append_right _ (mem_makeRequestWithRetry env.backend 2 _ (by omega)), rfl⟩

theorem cancelBooking_4xx_terminal (env : Env) (apiKey : String) (st : ApiState)
    (u reason : String) (hu : u ≠ "")
    (h4 : outcomeIs4xx (env.backend (v2CancelSpec u reason)) = true) :
    ((cancelBooking env apiKey st (some u) none reason).2.2.all
      (fun q => q.method != "DELETE")) = true
    ∧ (cancelBooking env apiKey st (some u) none reason).1.getKey "success"
        = Json.bool false := by
  obtain ⟨r, hbs, hs1, hs2⟩ :
      ∃ r, env.backend (v2CancelSpec u reason) = NetOutcome.reply r
        ∧ 400 ≤ r.status ∧ r.status < 500 := by
    cases hbs : env.backend (v2CancelSpec u reason) with
    | reply r =>
        refine ⟨r, rfl, ?_⟩
        have := h4
        simp only [outcomeIs4xx, hbs, decide_eq_true_eq] at this
        omega
    | transportError m => simp [outcomeIs4xx, hbs] at h4
  have hu' : (u != "") = true := by simpa using hu
  simp only [cancelBooking, resolveBookingUid_uid env apiKey u none hu,
    pyOrOptStr, optTruthy, hu', if_true, pyStrOpt,
    makeRequestWithRetry_reply env.backend 2 _ r (by omega) hbs]
  rw [if_pos (show (400:Nat) ≤ r.status ∧ r.status < 500 from ⟨hs1, hs2⟩)]
  constructor
  · rw [List.all_eq_true]
    intro q hq
    rw [List.nil_append] at hq
    have := eq_of_mem_makeRequestWithRetry env.backend 2 _ q hq
    subst this
    rfl
  · rfl

theorem cancelBooking_transport_no_v1 (env : Env) (apiKey : String) (st : ApiState)
    (u reason : String) (hu : u ≠ "")
    (ht : outcomeRaises (env.backend (v2CancelSpec u reason)) = true) :
    ((cancelBooking env apiKey st (some u) none reason).2.2.all
      (fun q => q.method != "DELETE")) = true := by
  obtain ⟨m, hbs⟩ : ∃ m, env.backend (v2CancelSpec u reason) = NetOutcome.transportError m := by
    cases hbs : env.backend (v2CancelSpec u reason) with
    | reply r => simp [outcomeRaises, hbs] at ht
    | transportError m => exact ⟨m, rfl⟩
  have hu' : (u != "") = true := by simpa using hu
  simp only [cancelBooking, resolveBookingUid_uid env apiKey u none hu,
    pyOrOptStr, optTruthy, hu', if_true, pyStrOpt,
    makeRequestWithRetry_transport env.backend 2 _ m (by omega) hbs]
  rw [List.all_eq_true]
  intro q hq
  rw [List.nil_append] at hq
  have := eq_of_mem_makeRequestWithRetry env.backend 2 _ q hq
  subst this
  rfl

theorem rescheduleBooking_terminal_no_fallback (env : Env) (apiKey : String) (st : ApiState)
    (u newStart reason : String) (hu : u ≠ "")
    (h : outcomeIs4xx (env.backend (v2RescheduleSpec u (reschedulePayload newStart reason))) = true
       ∨ outcomeRaises (env.backend (v2RescheduleSpec u (reschedulePayload newStart reason))) = true) :
    ((rescheduleBooking env apiKey st (some u) none newStart reason).2.2.all
      (fun q => q == v2RescheduleSpec u (reschedulePayload newStart reason))) = true := by
  have hu' : (u != "") = true := by simpa using hu
  cases hbs : env.backend (v2RescheduleSpec u (reschedulePayload newStart reason)) with
  | reply r =>
      have h4 : 400 ≤ r.status ∧ r.status < 500 := by
        rcases h with h | h
        · simpa [outcomeIs4xx, hbs] using h
        · simp [outcomeRaises, hbs] at h
      simp only [rescheduleBooking, resolveBookingUid_uid env apiKey u none hu,
        pyOrOptStr, optTruthy, hu', if_true, pyStrOpt,
        makeRequestWithRetry_reply env.backend 2 _ r (by omega) hbs]
      rw [if_pos (show (400:Nat) ≤ r.status ∧ r.status < 500 from h4)]
      rw [List.all_eq_true]
      intro q hq
      rw [List.nil_append] at hq
      have := eq_of_mem_makeRequestWithRetry env.backend 2 _ q hq
      subst this
      simp
  | transportError m =>
      simp only [rescheduleBooking, resolveBookingUid_uid env apiKey u none hu,
        pyOrOptStr, optTruthy, hu', if_true, pyStrOpt,
        makeRequestWithRetry_transport env.backend 2 _ m (by omega) hbs]
      rw [List.all_eq_true]
      intro q hq
      rw [List.nil_append] at hq
      have := eq_of_mem_makeRequestWithRetry env.backend 2 _ q hq
      subst this
      simp

/-- The compensating transaction always begins with the bookings fetch
(`get_bookings()` at line 1292), whose v2 request is issued first. -/
theorem rescheduleFallback_fetches_bookings (env : Env) (apiKey : String) (st : ApiState)
    (ru : Option String) (tok ns rsn : String) :
    v2BookingsSpec (Json.obj []) ∈ (rescheduleFallback env apiKey st ru tok ns rsn).2.2 := by
  have hb : v2BookingsSpec (Json.obj []) ∈ (getBookings env apiKey none none).2 := by
    simp only [getBookings, optTruthy]
    exact getBookingsLegs_v2_issued apiKey env.backend []
  simp only [rescheduleFallback]
  repeat' split
  all_goals first
    | exact hb
    | exact List.mem_append_left _ hb
    | exact List.mem_append_left _ (List.mem_append_left _ hb)

theorem rescheduleBooking_5xx_compensates (env : Env) (apiKey : String) (st : ApiState)
    (u newStart reason : String) (hu : u ≠ "")
    (h5 : outcomeIs5xx (env.backend (v2RescheduleSpec u (reschedulePayload newStart reason))) = true) :
    v2BookingsSpec (Json.obj []) ∈
      (rescheduleBooking env apiKey st (some u) none newStart reason).2.2 := by
  obtain ⟨r, hbs, hs⟩ :
      ∃ r, env.backend (v2RescheduleSpec u (reschedulePayload newStart reason)) = NetOutcome.reply r
        ∧ 500 ≤ r.status := by
    cases hbs : env.backend (v2RescheduleSpec u (reschedulePayload newStart reason)) with
    | reply r => exact ⟨r, rfl, by simpa [outcomeIs5xx, hbs] using h5⟩
    | transportError m => simp [outcomeIs5xx, hbs] at h5
  have hu' : (u != "") = true := by simpa using hu
  simp only [rescheduleBooking, resolveBookingUid_uid env apiKey u none hu,
    pyOrOptStr, optTruthy, hu', if_true, pyStrOpt,
    makeRequestWithRetry_reply env.backend 2 _ r (by omega) hbs]
  rw [if_neg (by simp; omega), if_pos (by simp; omega)]
  exact List.mem_append_right _ (rescheduleFallback_fetches_bookings env apiKey st _ u newStart reason)

/-- The trace of `create_booking` is empty (duplicate or validation return)
or exactly the trace of its network phase. -/
theorem createBooking_trace (env : Env) (apiKey : String) (st : ApiState)
    (etid : Json) (startT : String) (email name : Json) (tz lang reason : String) :
    (createBooking env apiKey st etid startT email name tz lang reason).2.2 = []
    ∨ (createBooking env apiKey st etid startT email name tz lang reason).2.2
        = (createBookingLegs apiKey env.backend
            (buildBookingPayload etid startT email name tz lang reason)).2 := by
  simp only [createBooking]
  repeat' split
  all_goals first | exact Or.inl rfl | exact Or.inr rfl

/-- Backend used in the counterexample to claim C1: the v2 event-types call
replies 404 (a 4xx), everything else replies 200. -/
def c1Backend : Backend := fun r =>
  if r.url == "https://api.cal.com/v2/event-types" then
    NetOutcome.reply { status := 404, body := Json.null, text := "not found" }
  else NetOutcome.reply { status := 200, body := Json.arr [] }

def c1Env : Env := { backend := c1Backend, isoOk := fun _ => true, fmtPst := fun s => s }

/-- C1 (counterexample).  The claim says a generation-A 4xx is terminal for
every dual-generation operation.  For `get_event_types` a v2 404 is raised
as `HTTPError` and caught by the `except Exception` fallback handler (lines
294–307), so the v1 call *is* attempted: at this input the adapter falls
back on a 4xx. -/
theorem C1_counterexample :
    outcomeIs4xx (c1Env.backend v2EventTypesSpec) = true
    ∧ v1EventTypesSpec "k" ∈ (getEventTypes c1Env "k" {}).2.2 := by
  constructor
  · decide
  · decide

/-- C1 (amended).  The 5xx-or-transport → fallback half of the claim holds
for all six operations, but the 4xx policy is split by operation:
`get_event_types`, `get_available_slots`, `create_booking` and `get_bookings`
fall back to generation B on *any* v2 failure, 4xx included (their fallback
handlers catch every exception); only `cancel_booking` and
`reschedule_booking` treat a 4xx as terminal — and for those two a v2
*transport* error is not caught by their `except HTTPError` handler, so it
reaches the outer handler without attempting generation B.  Parts, in order:
(1) `get_event_types`, (2) `get_available_slots`, (3) `create_booking` and
(4) `get_bookings` attempt v1 whenever the v2 call failed (status ≥ 400 or
transport error); (5) `cancel_booking` attempts the v1 DELETE on a v2 5xx,
(6) is terminal without fallback on a 4xx, and (7) does not attempt v1 on a
transport error; (8) `reschedule_booking` issues nothing beyond the v2
reschedule request on a 4xx or transport error, and (9) enters the
compensating cancel-and-create path (beginning with the bookings fetch) on a
5xx. -/
theorem C1_amended_fallback_policy :
    (∀ (env : Env) (apiKey : String) (st : ApiState),
        outcomeFails (env.backend v2EventTypesSpec) = true →
        v1EventTypesSpec apiKey ∈ (getEventTypes env apiKey st).2.2)
  ∧ (∀ (env : Env) (apiKey : String) (etid : Json) (sd ed : String),
        outcomeFails (env.backend (v2SlotsSpec etid (normalizeDate sd) (normalizeDate ed))) = true →
        v1SlotsSpec apiKey etid sd ed ∈ (getAvailableSlots env apiKey etid sd ed).2)
  ∧ (∀ (env : Env) (apiKey : String) (st : ApiState) (etid : Json) (startT : String)
        (email name : Json) (tz lang reason : String),
        v2CreateSpec (buildBookingPayload etid startT email name tz lang reason)
          ∈ (createBooking env apiKey st etid startT email name tz lang reason).2.2 →
        outcomeFails (env.backend
          (v2CreateSpec (buildBookingPayload etid startT email name tz lang reason))) = true →
        v1CreateSpec apiKey (buildBookingPayload etid startT email name tz lang reason)
          ∈ (createBooking env apiKey st etid startT email name tz lang reason).2.2)
  ∧ (∀ (env : Env) (apiKey : String) (ae an : Option String),
        outcomeFails (env.backend (v2BookingsSpec (Json.obj
          (if optTruthy ae then [("attendeeEmail", Json.str (ae.getD ""))] else [])))) = true →
        v1BookingsSpec apiKey
            (if optTruthy ae then [("attendeeEmail", Json.str (ae.getD ""))] else [])
          ∈ (getBookings env apiKey ae an).2)
  ∧ (∀ (env : Env) (apiKey : String) (st : ApiState) (u reason : String), u ≠ "" →
        outcomeIs5xx (env.backend (v2CancelSpec u reason)) = true →
        ((cancelBooking env apiKey st (some u) none reason).2.2.any
          (fun q => q.method == "DELETE")) = true)
  ∧ (∀ (env : Env) (apiKey : String) (st : ApiState) (u reason : String), u ≠ "" →
        outcomeIs4xx (env.backend (v2CancelSpec u reason)) = true →
        ((cancelBooking env apiKey st (some u) none reason).2.2.all
          (fun q => q.method != "DELETE")) = true
        ∧ (cancelBooking env apiKey st (some u) none reason).1.getKey "success"
            = Json.bool false)
  ∧ (∀ (env : Env) (apiKey : String) (st : ApiState) (u reason : String), u ≠ "" →
        outcomeRaises (env.backend (v2CancelSpec u reason)) = true →
        ((cancelBooking env apiKey st (some u) none reason).2.2.all
          (fun q => q.method != "DELETE")) = true)
  ∧ (∀ (env : Env) (apiKey : String) (st : ApiState) (u ns reason : String), u ≠ "" →
        (outcomeIs4xx (env.backend (v2RescheduleSpec u (reschedulePayload ns reason))) = true
          ∨ outcomeRaises (env.backend (v2RescheduleSpec u (reschedulePayload ns reason))) = true) →
        ((rescheduleBooking env apiKey st (some u) none ns reason).2.2.all
          (fun q => q == v2RescheduleSpec u (reschedulePayload ns reason))) = true)
  ∧ (∀ (env : Env) (apiKey : String) (st : ApiState) (u ns reason : String), u ≠ "" →
        outcomeIs5xx (env.backend (v2RescheduleSpec u (reschedulePayload ns reason))) = true →
        v2BookingsSpec (Json.obj [])
          ∈ (rescheduleBooking env apiKey st (some u) none ns reason).2.2) := by
  refine ⟨?_, ?_, ?_, ?_, ?_, ?_, ?_, ?_, ?_⟩
  · intro env apiKey st hf
    exact getEventTypesLegs_attempts_v1 apiKey env.backend hf
  · intro env apiKey etid sd ed hf
    exact getAvailableSlotsLegs_attempts_v1 apiKey env.backend etid sd ed hf
  · intro env apiKey st etid startT email name tz lang reason hmem hf
    rcases createBooking_trace env apiKey st etid startT email name tz lang reason with h | h
    · rw [h] at hmem
      exact absurd hmem (List.not_mem_nil _)
    · rw [h]
      exact createBookingLegs_attempts_v1 apiKey env.backend _ hf
  · intro env apiKey ae an hf
    exact getBookingsLegs_attempts_v1 apiKey env.backend _ hf
  · intro env apiKey st u reason hu h5
    exact cancelBooking_5xx_attempts_v1 env apiKey st u reason hu h5
  · intro env apiKey st u reason hu h4
    exact cancelBooking_4xx_terminal env apiKey st u reason hu h4
  · intro env apiKey st u reason hu ht
    exact cancelBooking_transport_no_v1 env apiKey st u reason hu ht
  · intro env apiKey st u ns reason hu h
    exact rescheduleBooking_terminal_no_fallback env apiKey st u ns reason hu h
  · intro env apiKey st u ns reason hu h5
    exact rescheduleBooking_5xx_compensates env apiKey st u ns reason hu h5

/-- Witness backend: v2 event-types is down at transport level, v2 cancel
replies 404, everything else replies 200. -/
def c1wBackend : Backend := fun r =>
  if r.url == "https://api.cal.com/v2/event-types" then NetOutcome.transportError "down"
  else if r.method == "POST" then NetOutcome.reply { status := 404, text := "nf" }
  else NetOutcome.reply { status := 200, body := Json.arr [] }

def c1wEnv : Env := { backend := c1wBackend, isoOk := fun _ => true, fmtPst := fun s => s }

theorem C1_amended_fallback_policy_witness :
    (outcomeFails (c1wEnv.backend v2EventTypesSpec) = true
      ∧ v1EventTypesSpec "k" ∈ (getEventTypes c1wEnv "k" {}).2.2)
    ∧ (outcomeIs4xx (c1wEnv.backend (v2CancelSpec "u1" "why")) = true
      ∧ ((cancelBooking c1wEnv "k" {} (some "u1") none "why").2.2.all
          (fun q => q.method != "DELETE")) = true) :=
  ⟨⟨by decide, C1_amended_fallback_policy.1 c1wEnv "k" {} (by decide)⟩,
   ⟨by decide,
    (C1_amended_fallback_policy.2.2.2.2.2.1 c1wEnv "k" {} "u1" "why" (by decide) (by decide)).1⟩⟩

/-! ## UID resolution (claim C2) -/

/-- The UID a direct-fetch leg extracts, as a function of the backend's
outcome for that request (see `uidFromFetch`). -/
def uidOfReply : NetOutcome → Option String
  | NetOutcome.transportError _ => none
  | NetOutcome.reply r =>
      if r.status < 400 then
        let node := match r.body with
          | Json.obj _ => r.body.getKeyD "data" r.body
          | _ => Json.obj []
        match node with
        | Json.obj _ =>
            let uidVal := pyOr (node.getKey "uid") (node.getKey "bookingUid")
            if uidVal.truthy then some (pyStr uidVal) else none
        | _ => none
      else none

theorem uidFromFetch_makeRequest (backend : Backend) (n : Nat) (spec : ReqSpec)
    (h : 1 ≤ n) :
    uidFromFetch (makeRequestWithRetry backend n spec).1 = uidOfReply (backend spec) := by
  cases hbs : backend spec with
  | reply r =>
      rw [makeRequestWithRetry_reply backend n spec r h hbs]
      simp [uidFromFetch, uidOfReply]
  | transportError m =>
      rw [makeRequestWithRetry_transport backend n spec m h hbs]
      simp [uidFromFetch, uidOfReply]

theorem findSome_isSome_of_any {α : Type} (p : α → Bool) (g : α → String) :
    ∀ l : List α, l.any p = true →
      (l.findSome? (fun b => if p b then some (g b) else none)).isSome = true := by
  intro l hl
  induction l with
  | nil => simp at hl
  | cons x tl ih =>
      by_cases hx : p x = true
      · simp [List.findSome?, hx]
      · simp only [List.any_cons, Bool.or_eq_true] at hl
        rcases hl with hl | hl
        · exact absurd hl hx
        · simpa [List.findSome?, hx] using ih hl

/-- Backend used in the counterexample to claim C2: both direct fetches of
booking id 123 reply 404, the booking list is empty, and the v2 cancel of
the raw id replies 200. -/
def c2Backend : Backend := fun r =>
  if r.url == "https://api.cal.com/v2/bookings/123" then NetOutcome.reply { status := 404 }
  else if r.url == "https://api.cal.com/v1/bookings/123" then NetOutcome.reply { status := 404 }
  else if r.url == "https://api.cal.com/v2/bookings" then
    NetOutcome.reply { status := 200, body := Json.obj [("data", Json.arr [])] }
  else if r.url == "https://api.cal.com/v2/bookings/123/cancel" then
    NetOutcome.reply { status := 200, body := Json.obj [] }
  else NetOutcome.transportError "unreachable"

def c2Env : Env := { backend := c2Backend, isoOk := fun _ => true, fmtPst := fun s => s }

/-- C2 (counterexample).  With only the numeric id `123` and no booking
matching it anywhere, the claim demands a not-found result and no cancel
request carrying the raw id.  The source instead sets
`path_token = resolved_uid or (booking_uid or booking_id)` (line 1128) and
proceeds: the cancel request for the raw id `123` is issued, and the result
is a success, not a not-found error. -/
theorem C2_counterexample :
    (cancelBooking c2Env "k" {} none (some "123") "Cancelled by user").1.getKey "success"
        = Json.bool true
    ∧ v2CancelSpec "123" "Cancelled by user"
        ∈ (cancelBooking c2Env "k" {} none (some "123") "Cancelled by user").2.2 := by
  constructor
  · decide
  · decide

/-- C2 (amended).  Resolution itself follows the claimed cascade: (1) a
truthy UID argument is returned directly with no requests; (2) a v2 direct
fetch that yields a UID settles resolution using only the v2 fetch request;
(3) otherwise a v1 direct fetch that yields a UID settles it using only the
two fetch requests; (4) if both direct fetches yield nothing and some
booking in the `get_bookings()` list matches the id with a truthy uid, the
scan resolves it.  But when resolution fails the operation does *not*
return a not-found error: (5) the cancel request is issued with the raw
numeric id as the path token, and (6) with a 2xx cancel reply the result is
a success. -/
theorem C2_amended_uid_resolution :
    (∀ (env : Env) (apiKey u : String) (bid : Option String), u ≠ "" →
        resolveBookingUid env apiKey (some u) bid = (some u, []))
  ∧ (∀ (env : Env) (apiKey bid u : String), bid ≠ "" →
        uidOfReply (env.backend (v2BookingFetchSpec bid)) = some u →
        (resolveBookingUid env apiKey none (some bid)).1 = some u
        ∧ ((resolveBookingUid env apiKey none (some bid)).2.all
            (fun q => q == v2BookingFetchSpec bid)) = true)
  ∧ (∀ (env : Env) (apiKey bid u : String), bid ≠ "" →
        uidOfReply (env.backend (v2BookingFetchSpec bid)) = none →
        uidOfReply (env.backend (v1BookingFetchSpec apiKey bid)) = some u →
        (resolveBookingUid env apiKey none (some bid)).1 = some u
        ∧ ((resolveBookingUid env apiKey none (some bid)).2.all
            (fun q => q == v2BookingFetchSpec bid || q == v1BookingFetchSpec apiKey bid)) = true)
  ∧ (∀ (env : Env) (apiKey bid : String) (bl : List Json), bid ≠ "" →
        uidOfReply (env.backend (v2BookingFetchSpec bid)) = none →
        uidOfReply (env.backend (v1BookingFetchSpec apiKey bid)) = none →
        (getBookings env apiKey none none).1.getKey "bookings" = Json.arr bl →
        (bl.any (fun b => pyStr (b.getKey "id") == bid && (b.getKey "uid").truthy)) = true →
        ((resolveBookingUid env apiKey none (some bid)).1).isSome = true)
  ∧ (∀ (env : Env) (apiKey : String) (st : ApiState) (bid reason : String), bid ≠ "" →
        (resolveBookingUid env apiKey none (some bid)).1 = none →
        v2CancelSpec bid reason
          ∈ (cancelBooking env apiKey st none (some bid) reason).2.2)
  ∧ (∀ (env : Env) (apiKey : String) (st : ApiState) (bid reason : String)
        (rep : BackendReply), bid ≠ "" →
        (resolveBookingUid env apiKey none (some bid)).1 = none →
        env.backend (v2CancelSpec bid reason) = NetOutcome.reply rep → rep.status < 400 →
        (cancelBooking env apiKey st none (some bid) reason).1.getKey "success"
          = Json.bool true) := by
  have hbid' : ∀ (bid : String), bid ≠ "" → (bid != "") = true := fun bid h => by simpa using h
  have hpath : ∀ bid : String,
      pyStrOpt (pyOrOptStr none (pyOrOptStr none (some bid))) = bid := by
    intro bid
    simp [pyOrOptStr, optTruthy, pyStrOpt]
  refine ⟨?_, ?_, ?_, ?_, ?_, ?_⟩
  · intro env apiKey u bid hu
    exact resolveBookingUid_uid env apiKey u bid hu
  · intro env apiKey bid u hb h2
    have hres : resolveBookingUid env apiKey none (some bid)
        = (some u, (makeRequestWithRetry env.backend 2 (v2BookingFetchSpec bid)).2) := by
      simp [resolveBookingUid, optTruthy, pyStrOpt, hbid' bid hb,
        uidFromFetch_makeRequest env.backend 2 _ (by omega), h2]
    rw [hres]
    refine ⟨rfl, ?_⟩
    rw [List.all_eq_true]
    intro q hq
    have := eq_of_mem_makeRequestWithRetry env.backend 2 _ q hq
    subst this
    simp
  · intro env apiKey bid u hb h2 h1
    have hres : resolveBookingUid env apiKey none (some bid)
        = (some u, (makeRequestWithRetry env.backend 2 (v2BookingFetchSpec bid)).2
            ++ (makeRequestWithRetry env.backend 2 (v1BookingFetchSpec apiKey bid)).2) := by
      simp [resolveBookingUid, optTruthy, pyStrOpt, hbid' bid hb,
        uidFromFetch_makeRequest env.backend 2 _ (by omega), h2, h1]
    rw [hres]
    refine ⟨rfl, ?_⟩
    rw [List.all_eq_true]
    intro q hq
    rcases List.mem_append.mp hq with hq | hq
    · have := eq_of_mem_makeRequestWithRetry env.backend 2 _ q hq
      subst this
      simp
    · have := eq_of_mem_makeRequestWithRetry env.backend 2 _ q hq
      subst this
      simp
  · intro env apiKey bid bl hb h2 h1 hbl hany
    have hres : (resolveBookingUid env apiKey none (some bid)).1
        = bl.findSome? (fun b =>
            if pyStr (b.getKey "id") == bid && (b.getKey "uid").truthy then
              some (pyStr (b.getKey "uid"))
            else none) := by
      simp [resolveBookingUid, optTruthy, pyStrOpt, hbid' bid hb,
        uidFromFetch_makeRequest env.backend 2 _ (by omega), h2, h1, hbl]
    rw [hres]
    exact findSome_isSome_of_any _ _ bl hany
  · intro env apiKey st bid reason hb hres
    have hm := mem_makeRequestWithRetry env.backend 2 (v2CancelSpec bid reason) (by omega)
    simp only [cancelBooking, hres, hpath bid]
    repeat' split
    all_goals first
      | exact List.mem_append_right _ hm
      | exact List.mem_append_left _ (List.mem_append_right _ hm)
  · intro env apiKey st bid reason rep hb hres hrep hst
    simp only [cancelBooking, hres, hpath bid,
      makeRequestWithRetry_reply env.backend 2 _ rep (by omega) hrep]
    rw [if_neg (by simp; omega), if_neg (by simp; omega)]
    simp only [cancelHandleResponse]
    rw [if_neg (by simp; omega)]
    rfl

theorem C2_amended_uid_resolution_witness :
    (resolveBookingUid c2Env "k" none (some "123")).1 = none
    ∧ v2CancelSpec "123" "r1" ∈ (cancelBooking c2Env "k" {} none (some "123") "r1").2.2
    ∧ (cancelBooking c2Env "k" {} none (some "123") "r1").1.getKey "success"
        = Json.bool true :=
  ⟨by decide,
   C2_amended_uid_resolution.2.2.2.2.1 c2Env "k" {} "123" "r1" (by decide) (by decide),
   C2_amended_uid_resolution.2.2.2.2.2 c2Env "k" {} "123" "r1"
     { status := 200, body := Json.obj [], text := "" }
     (by decide) (by decide) (by decide) (by decide)⟩

/-! ## Compensating-transaction reporting (claim C3) -/

theorem cancelBooking_2xx_success (env : Env) (apiKey : String) (st : ApiState)
    (u reason : String) (hu : u ≠ "") (rep : BackendReply)
    (hrep : env.backend (v2CancelSpec u reason) = NetOutcome.reply rep)
    (hst : rep.status < 400) :
    (cancelBooking env apiKey st (some u) none reason).1.getKey "success" = Json.bool true
    ∧ (cancelBooking env apiKey st (some u) none reason).2.1 = st := by
  have hu' : (u != "") = true := by simpa using hu
  simp only [cancelBooking, resolveBookingUid_uid env apiKey u none hu,
    pyOrOptStr, optTruthy, hu', if_true, pyStrOpt,
    makeRequestWithRetry_reply env.backend 2 _ rep (by omega) hrep]
  rw [if_neg (by simp; omega), if_neg (by simp; omega)]
  simp only [cancelHandleResponse]
  rw [if_neg (by simp; omega)]
  exact ⟨rfl, rfl⟩

theorem createBookingLegs_both_http_error (apiKey : String) (backend : Backend)
    (payload : Json) (c2r c1r : BackendReply)
    (h2 : backend (v2CreateSpec payload) = NetOutcome.reply c2r) (h2s : 400 ≤ c2r.status)
    (h1 : backend (v1CreateSpec apiKey payload) = NetOutcome.reply c1r) :
    (createBookingLegs apiKey backend payload).1 =
      Except.ok { status := c1r.status, url := (v1CreateSpec apiKey payload).url,
                  body := c1r.body, text := c1r.text } := by
  simp only [createBookingLegs, makeRequestWithRetry_reply backend 3 _ c2r (by omega) h2]
  rw [if_pos (by simp; omega)]
  exact makeRequestWithRetry_reply backend 3 _ c1r (by omega) h1

/-- A creation attempt whose two legs both reply with an HTTP error returns
a failure dictionary (not `None`). -/
theorem createBooking_http_error (env : Env) (apiKey : String) (st : ApiState)
    (etid : Json) (startT : String) (email name : Json) (tz lang reason : String)
    (hproc : st.processing = none)
    (hvalid : (validateBookingPayload env.isoOk
      (buildBookingPayload etid startT email name tz lang reason)).valid = true)
    (c2r c1r : BackendReply)
    (h2 : env.backend (v2CreateSpec (buildBookingPayload etid startT email name tz lang reason))
        = NetOutcome.reply c2r)
    (h2s : 400 ≤ c2r.status)
    (h1 : env.backend (v1CreateSpec apiKey (buildBookingPayload etid startT email name tz lang reason))
        = NetOutcome.reply c1r)
    (h1s : 400 ≤ c1r.status) :
    ∃ r, (createBooking env apiKey st etid startT email name tz lang reason).1 = some r
      ∧ r.getKey "success" = Json.bool false := by
  simp only [createBooking, hproc]
  rw [if_neg (by simp)]
  rw [if_neg (by simp [hvalid])]
  simp only [createBookingLegs_both_http_error apiKey env.backend _ c2r c1r h2 h2s h1]
  rw [if_pos (by simp; omega)]
  exact ⟨_, rfl, by simp [Json.getKey, lookupField]⟩

/-- Two strings with a character mismatch inside their fixed prefixes stay
different whatever is appended. -/
theorem string_append_ne (p q a b : String) (i : Nat)
    (hip : i < p.data.length) (hiq : i < q.data.length)
    (hne : p.data.get ⟨i, hip⟩ ≠ q.data.get ⟨i, hiq⟩) :
    p ++ a ≠ q ++ b := by
  intro h
  have hd : p.data ++ a.data = q.data ++ b.data := by
    have h2 := congrArg String.data h
    simpa [String.data_append] using h2
  have hq1 : (p.data ++ a.data)[i]? = (q.data ++ b.data)[i]? := by rw [hd]
  rw [List.getElem?_append_left hip, List.getElem?_append_left hiq,
    List.getElem?_eq_getElem hip, List.getElem?_eq_getElem hiq] at hq1
  apply hne
  have := Option.some.inj hq1
  simpa [List.get_eq_getElem] using this

theorem validateBookingPayload_reschedule_valid (isoOk : String → Bool) (ns : String)
    (hns : ns ≠ "") (hiso : isoOk ns = true) :
    (validateBookingPayload isoOk (buildBookingPayload (Json.num 3) ns (Json.str "a@b.c")
      (Json.str "A") "America/Los_Angeles" "en" "Rescheduled meeting")).valid = true := by
  have hns' : (ns != "") = true := by simpa using hns
  simp [validateBookingPayload, buildBookingPayload, Json.getKey, Json.getKeyD, lookupField,
    Json.truthy, pyStr, hns', hiso, strContains, validTimezones, List.find?]
  decide

theorem rescheduleFallbackFailure_success (st : ApiState) (ru : Option String)
    (tok emsg : String) :
    (rescheduleFallbackFailure st ru tok emsg).1.getKey "success" = Json.bool false := by
  simp [rescheduleFallbackFailure, Json.getKey, lookupField, List.find?]

theorem rescheduleFallbackFailure_error (st : ApiState) (ru : Option String)
    (tok emsg : String) :
    (rescheduleFallbackFailure st ru tok emsg).1.getKey "error"
      = Json.str (reschedFailGenPrefix ++ emsg) := by
  simp [rescheduleFallbackFailure, Json.getKey, lookupField, List.find?]

/-- C3.  In the compensating-transaction fallback of `reschedule_booking`
(cancel the original booking, then create a new one): (a) when the cancel
step succeeds and the creation step fails, the result is a failure whose
error message carries the `"Failed to create new booking: "` marker inside
the `"Reschedule failed on both v2 and v1: "` wrapper; (b) when the cancel
step itself fails, the error message carries the
`"Failed to cancel original booking: "` marker instead; and (c) no two such
messages coincide, whatever the underlying error texts are — so the
cancel-succeeded-create-failed outcome is distinguishable from the outcome
in which the cancel step failed (and the creation step never ran). -/
theorem C3_reschedule_compensation_reporting :
    (∀ (env : Env) (apiKey : String) (st : ApiState) (ru : Option String)
        (tok ns : String) (ob a : Json) (cr c2r c1r : BackendReply),
        st.processing = none → tok ≠ "" → ns ≠ "" → env.isoOk ns = true →
        (getBookings env apiKey none none).1.getKey "success" = Json.bool true →
        (getBookings env apiKey none none).1.getKey "bookings" = Json.arr [ob] →
        ob.getKey "uid" = Json.str tok →
        ob.getKey "eventTypeId" = Json.num 3 →
        ob.getKeyD "attendees" (Json.arr []) = Json.arr [a] →
        a.getKey "email" = Json.str "a@b.c" →
        a.getKey "name" = Json.str "A" →
        env.backend (v2CancelSpec tok "Rescheduling to new time") = NetOutcome.reply cr →
        cr.status < 400 →
        env.backend (v2CreateSpec (buildBookingPayload (Json.num 3) ns (Json.str "a@b.c")
          (Json.str "A") "America/Los_Angeles" "en" "Rescheduled meeting")) = NetOutcome.reply c2r →
        400 ≤ c2r.status →
        env.backend (v1CreateSpec apiKey (buildBookingPayload (Json.num 3) ns (Json.str "a@b.c")
          (Json.str "A") "America/Los_Angeles" "en" "Rescheduled meeting")) = NetOutcome.reply c1r →
        400 ≤ c1r.status →
        (rescheduleFallback env apiKey st ru tok ns "").1.getKey "success" = Json.bool false
        ∧ ∃ emsg, (rescheduleFallback env apiKey st ru tok ns "").1.getKey "error"
            = Json.str (reschedFailGenPrefix ++ (createStepFailMarker ++ emsg)))
  ∧ (∀ (env : Env) (apiKey : String) (st : ApiState) (ru : Option String)
        (tok ns : String) (ob a : Json) (cr : BackendReply),
        tok ≠ "" →
        (getBookings env apiKey none none).1.getKey "success" = Json.bool true →
        (getBookings env apiKey none none).1.getKey "bookings" = Json.arr [ob] →
        ob.getKey "uid" = Json.str tok →
        ob.getKeyD "attendees" (Json.arr []) = Json.arr [a] →
        env.backend (v2CancelSpec tok "Rescheduling to new time") = NetOutcome.reply cr →
        400 ≤ cr.status → cr.status < 500 →
        (rescheduleFallback env apiKey st ru tok ns "").1.getKey "success" = Json.bool false
        ∧ ∃ emsg, (rescheduleFallback env apiKey st ru tok ns "").1.getKey "error"
            = Json.str (reschedFailGenPrefix ++ (cancelStepFailMarker ++ emsg)))
  ∧ (∀ s t : String,
        Json.str (reschedFailGenPrefix ++ (createStepFailMarker ++ s))
          ≠ Json.str (reschedFailGenPrefix ++ (cancelStepFailMarker ++ t))) := by
  refine ⟨?_, ?_, ?_⟩
  · intro env apiKey st ru tok ns ob a cr c2r c1r hproc htok hns hiso hgs hgb huid hetid
      hatt hem hnm hcr hcrs h2 h2s h1 h1s
    have hfind : ([ob].find? (fun b =>
        (b.getKey "uid") == Json.str tok || pyStr (b.getKey "id") == tok)) = some ob := by
      simp [List.find?, huid]
    have hcanc := cancelBooking_2xx_success env apiKey st tok "Rescheduling to new time"
      htok cr hcr hcrs
    have hvalid := validateBookingPayload_reschedule_valid env.isoOk ns hns hiso
    obtain ⟨r, hr, hrs⟩ := createBooking_http_error env apiKey st (Json.num 3) ns
      (Json.str "a@b.c") (Json.str "A") "America/Los_Angeles" "en" "Rescheduled meeting"
      hproc hvalid c2r c1r h2 h2s h1 h1s
    refine ⟨?_, ⟨pyStr (r.getKey "error"), ?_⟩⟩ <;>
      simp [rescheduleFallback, hgs, hgb, hfind, hetid, hatt, hem, hnm,
        hcanc.1, hcanc.2, hr, hrs, Json.truthy,
        rescheduleFallbackFailure_success, rescheduleFallbackFailure_error]
  · intro env apiKey st ru tok ns ob a cr htok hgs hgb huid hatt hcr hcrs1 hcrs2
    have hfind : ([ob].find? (fun b =>
        (b.getKey "uid") == Json.str tok || pyStr (b.getKey "id") == tok)) = some ob := by
      simp [List.find?, huid]
    have h4 : outcomeIs4xx (env.backend (v2CancelSpec tok "Rescheduling to new time")) = true := by
      rw [hcr]
      simp only [outcomeIs4xx, decide_eq_true_eq]
      omega
    have hcanc := cancelBooking_4xx_terminal env apiKey st tok "Rescheduling to new time" htok h4
    refine ⟨?_, ⟨pyStr ((cancelBooking env apiKey st (some tok) none
        "Rescheduling to new time").1.getKey "error"), ?_⟩⟩ <;>
      simp [rescheduleFallback, hgs, hgb, hfind, hatt, hcanc.2, Json.truthy,
        rescheduleFallbackFailure_success, rescheduleFallbackFailure_error]
  · intro s t h
    injection h with h2
    exact string_append_ne (reschedFailGenPrefix ++ createStepFailMarker)
      (reschedFailGenPrefix ++ cancelStepFailMarker) s t 48 (by decide) (by decide)
      (by decide) h2

/-- Witness environment for C3: one booking `uid-1`, cancel replies 200,
both creation legs reply 409. -/
def c3a : Json := Json.obj [("email", Json.str "a@b.c"), ("name", Json.str "A")]

def c3ob0 : Json := Json.obj [("uid", Json.str "uid-1"), ("id", Json.num 5),
  ("eventTypeId", Json.num 3), ("attendees", Json.arr [c3a])]

def c3Backend : Backend := fun r =>
  if r.url == "https://api.cal.com/v2/bookings" && r.method == "GET" then
    NetOutcome.reply { status := 200, body := Json.obj [("data", Json.arr [c3ob0])] }
  else if r.url == "https://api.cal.com/v2/bookings/uid-1/cancel" then
    NetOutcome.reply { status := 200, body := Json.obj [] }
  else NetOutcome.reply { status := 409, body := Json.obj [], text := "conflict" }

def c3Env : Env := { backend := c3Backend, isoOk := fun _ => true, fmtPst := fun s => s }

/-- The booking as `get_bookings` returns it (after enrichment). -/
def c3obEnriched : Json := Json.obj [("uid", Json.str "uid-1"), ("id", Json.num 5),
  ("eventTypeId", Json.num 3), ("attendees", Json.arr [c3a]),
  ("display_uid", Json.str "uid-1"),
  ("primary_attendee_email", Json.str "a@b.c"), ("primary_attendee_name", Json.str "A"),
  ("booking_url", Json.null), ("reschedule_url", Json.null), ("cancel_url", Json.null)]

theorem C3_reschedule_compensation_reporting_witness :
    (rescheduleFallback c3Env "k" {} none "uid-1" "2025-03-11T10:00:00Z" "").1.getKey "success"
        = Json.bool false
    ∧ (rescheduleFallback c3Env "k" {} none "uid-1" "2025-03-11T10:00:00Z" "").1.getKey "error"
        = Json.str (reschedFailGenPrefix ++ (createStepFailMarker ++
            "Booking failed: Time slot is no longer available. Please try a different time.")) := by
  have h := C3_reschedule_compensation_reporting.1 c3Env "k" {} none "uid-1"
    "2025-03-11T10:00:00Z" c3obEnriched c3a
    { status := 200, body := Json.obj [], text := "" }
    { status := 409, body := Json.obj [], text := "conflict" }
    { status := 409, body := Json.obj [], text := "conflict" }
    (by decide) (by decide) (by decide) (by decide) (by decide) (by decide) (by decide)
    (by decide) (by decide) (by decide) (by decide) (by decide) (by decide) (by decide)
    (by decide) (by decide) (by decide)
  exact ⟨h.1, by decide⟩

/-! ## In-flight guard release (claim C4) and the missing success return
(claim C6) -/

def c4Env : Env :=
  { backend := fun _ => NetOutcome.transportError "unused",
    isoOk := fun _ => true, fmtPst := fun s => s }

def c4HttpEnv : Env :=
  { backend := fun _ => NetOutcome.reply { status := 409, body := Json.obj [], text := "conflict" },
    isoOk := fun _ => true, fmtPst := fun s => s }

/-- C4 (code defect).  The claim — matching the spec and the source's own
"Always remove from processing set" comment — says the booking key is
removed from `_processing_bookings` on every return path.  The `finally`
that removes it only wraps the response-handling block (lines 820–841), so
the validation-failure return (line 707) and the HTTP-error return (lines
808–814) leak the key: after either call below the key is still in the set,
and any later identical request would be rejected as a duplicate forever. -/
theorem C4_guard_leak :
    ((createBooking c4Env "k" {} (Json.num 3) "2025-03-11T10:00:00Z" (Json.str "bad-email")
        (Json.str "A") "America/Los_Angeles" "en" "").1.map (fun r => r.getKey "success"))
      = some (Json.bool false)
    ∧ (createBooking c4Env "k" {} (Json.num 3) "2025-03-11T10:00:00Z" (Json.str "bad-email")
        (Json.str "A") "America/Los_Angeles" "en" "").2.1.processing
      = some ["3:2025-03-11T10:00:00Z:bad-email"]
    ∧ (createBooking c4HttpEnv "k" {} (Json.num 3) "2025-03-11T10:00:00Z" (Json.str "a@b.c")
        (Json.str "A") "America/Los_Angeles" "en" "").2.1.processing
      = some ["3:2025-03-11T10:00:00Z:a@b.c"] := by
  refine ⟨by decide, by decide, by decide⟩

def c6Env : Env :=
  { backend := fun _ => NetOutcome.reply
      { status := 200,
        body := Json.obj [("status", Json.str "success"),
                          ("data", Json.obj [("id", Json.num 7), ("uid", Json.str "abc")])] },
    isoOk := fun _ => true, fmtPst := fun s => s }

/-- C6 (code defect).  The claim — matching the spec's "every public
operation returns a result object" — says `create_booking` always returns a
dictionary with a `success` boolean.  The success `return` of the source
sits inside `if not booking_data:` (lines 822–833), so a 2xx response whose
body carries a populated `data` object takes neither return and the
function falls off the end: Python returns `None`. -/
theorem C6_create_booking_returns_none :
    (createBooking c6Env "k" {} (Json.num 3) "2025-03-11T10:00:00Z" (Json.str "a@b.c")
        (Json.str "A") "America/Los_Angeles" "en" "").1 = none := by
  decide

/-! ## Category-resolution tie-break (claim C7) -/

def prepET : Json := Json.obj [("id", Json.num 2), ("title", Json.str "Interview Prep")]

def intvET : Json := Json.obj [("id", Json.num 1), ("title", Json.str "Interview")]

/-- C7 (counterexample).  The claim says the reason "interview" resolves to
the category titled exactly "Interview" in any list order.  The matching
loop (lines 2048–2059) takes the *first* category, in list order, whose
title matches exactly *or* by substring; with "Interview Prep" listed
first, the substring test `reason_lower in title` fires on it and the loop
breaks before the exact match is ever examined. -/
theorem C7_counterexample :
    matchEventType [prepET, intvET] "interview" = some prepET
    ∧ (matchEventType [prepET, intvET] "interview").map (fun et => et.getKey "title")
        = some (Json.str "Interview Prep")
    ∧ Json.str "Interview Prep" ≠ Json.str "Interview" := by
  refine ⟨by decide, by decide, by decide⟩

/-- C7 (amended).  Resolution is first-match-in-list-order with exact and
substring tests combined per element: both "Interview" and "Interview Prep"
match the reason "interview", so whichever is listed first wins — with
"Interview" first the exact match is chosen, with "Interview Prep" first
the substring match is. -/
theorem C7_amended_first_match :
    matchesReason "interview" intvET = true
    ∧ matchesReason "interview" prepET = true
    ∧ matchEventType [intvET, prepET] "interview" = some intvET
    ∧ matchEventType [prepET, intvET] "interview" = some prepET := by
  refine ⟨by decide, by decide, by decide, by decide⟩

/-! ## Slot-response normalization (claim C8) -/

theorem dedupeGo_nodup_aux (xs : List String) :
    ∀ seen : List String, (dedupeGo seen xs).Nodup
      ∧ ∀ a ∈ dedupeGo seen xs, a ∉ seen := by
  induction xs with
  | nil => intro seen; simp [dedupeGo]
  | cons x tl ih =>
      intro seen
      by_cases hx : x ∈ seen
      · have hx' : seen.contains x = true := by simpa using hx
        rw [dedupeGo, if_pos hx']
        exact ih seen
      · have hx' : ¬ (seen.contains x = true) := by simpa using hx
        rw [dedupeGo, if_neg hx']
        constructor
        · rw [List.nodup_cons]
          refine ⟨?_, (ih (seen ++ [x])).1⟩
          intro hmem
          have h2 := (ih (seen ++ [x])).2 x hmem
          simp at h2
        · intro a ha
          rw [List.mem_cons] at ha
          rcases ha with rfl | ha
          · exact hx
          · have h2 := (ih (seen ++ [x])).2 a ha
            intro hmem
            exact h2 (List.mem_append_left _ hmem)

theorem dedupeKeepFirst_nodup (xs : List String) : (dedupeKeepFirst xs).Nodup :=
  (dedupeGo_nodup_aux xs []).1

theorem dedupeGo_sublist (xs : List String) :
    ∀ seen : List String, List.Sublist (dedupeGo seen xs) xs := by
  induction xs with
  | nil => intro seen; simp [dedupeGo]
  | cons x tl ih =>
      intro seen
      by_cases hx : seen.contains x = true
      · rw [dedupeGo, if_pos hx]
        exact List.Sublist.cons x (ih seen)
      · rw [dedupeGo, if_neg hx]
        exact List.Sublist.cons₂ x (ih (seen ++ [x]))

theorem dedupeKeepFirst_sublist (xs : List String) :
    List.Sublist (dedupeKeepFirst xs) xs :=
  dedupeGo_sublist xs []

theorem flatMap_v2SlotExtract (ts : List String) (h : ∀ t ∈ ts, t ≠ "") :
    (ts.map (fun t => Json.obj [("start", Json.str t)])).flatMap v2SlotExtract = ts := by
  induction ts with
  | nil => rfl
  | cons t tl ih =>
      have ht' : (t != "") = true := by simpa using h t (List.mem_cons_self t tl)
      simp [v2SlotExtract, Json.getKey, lookupField, pyOr, Json.truthy, ht',
        ih (fun x hx => h x (List.mem_cons_of_mem _ hx))]

theorem flatMap_v1SlotExtract (ts : List String) (h : ∀ t ∈ ts, t ≠ "") :
    (ts.map (fun t => Json.obj [("time", Json.str t)])).flatMap v1SlotExtract = ts := by
  induction ts with
  | nil => rfl
  | cons t tl ih =>
      have ht' : (t != "") = true := by simpa using h t (List.mem_cons_self t tl)
      simp [v1SlotExtract, Json.getKey, lookupField, ht',
        ih (fun x hx => h x (List.mem_cons_of_mem _ hx))]

theorem slotsFromDateMap_v2 (days : List (String × List String))
    (h : ∀ d ∈ days, ∀ t ∈ d.2, t ≠ "") :
    slotsFromDateMap v2SlotExtract
        (days.map (fun d => (d.1, Json.arr (d.2.map (fun t => Json.obj [("start", Json.str t)])))))
      = days.flatMap (fun d => d.2) := by
  induction days with
  | nil => rfl
  | cons d tl ih =>
      simp only [List.map_cons, slotsFromDateMap, List.flatMap_cons]
      rw [flatMap_v2SlotExtract d.2 (h d (List.mem_cons_self d tl)),
        ih (fun e he t ht => h e (List.mem_cons_of_mem _ he) t ht)]

theorem slotsFromDateMap_v1 (days : List (String × List String))
    (h : ∀ d ∈ days, ∀ t ∈ d.2, t ≠ "") :
    slotsFromDateMap v1SlotExtract
        (days.map (fun d => (d.1, Json.arr (d.2.map (fun t => Json.obj [("time", Json.str t)])))))
      = days.flatMap (fun d => d.2) := by
  induction days with
  | nil => rfl
  | cons d tl ih =>
      simp only [List.map_cons, slotsFromDateMap, List.flatMap_cons]
      rw [flatMap_v1SlotExtract d.2 (h d (List.mem_cons_self d tl)),
        ih (fun e he t ht => h e (List.mem_cons_of_mem _ he) t ht)]

/-- The synthetic generation-A (v2) response of the claim: slots nested
under `data.<date>[].start`. -/
def mkV2SlotsBody (days : List (String × List String)) : Json :=
  Json.obj [("status", Json.str "success"),
            ("data", Json.obj (days.map (fun d =>
              (d.1, Json.arr (d.2.map (fun t => Json.obj [("start", Json.str t)]))))))]

/-- The synthetic generation-B (v1) response of the claim: the same instants
nested under `slots.<date>[].time`. -/
def mkV1SlotsBody (days : List (String × List String)) : Json :=
  Json.obj [("slots", Json.obj (days.map (fun d =>
    (d.1, Json.arr (d.2.map (fun t => Json.obj [("time", Json.str t)]))))))]

/-- Environment whose v2 slots endpoint serves the generation-A response. -/
def c8EnvV2 (days : List (String × List String)) : Env :=
  { backend := fun r =>
      if r.url == "https://api.cal.com/v2/slots" then
        NetOutcome.reply { status := 200, body := mkV2SlotsBody days }
      else NetOutcome.transportError "down",
    isoOk := fun _ => true, fmtPst := fun s => s }

/-- Environment whose v2 slots endpoint is down (503) and whose v1 endpoint
serves the generation-B response. -/
def c8EnvV1 (days : List (String × List String)) : Env :=
  { backend := fun r =>
      if r.url == "https://api.cal.com/v1/slots" then
        NetOutcome.reply { status := 200, body := mkV1SlotsBody days }
      else if r.url == "https://api.cal.com/v2/slots" then
        NetOutcome.reply { status := 503, body := Json.null, text := "down" }
      else NetOutcome.transportError "x",
    isoOk := fun _ => true, fmtPst := fun s => s }

/-- C8.  A generation-A response with slots under `data.<date>[].start` and
a generation-B response with the same instants under `slots.<date>[].time`
normalize to the same flat list of instant strings: both calls succeed, the
slot lists agree, equal the order-preserving deduplication of the flattened
instants, contain no duplicates, and preserve first-occurrence order (the
normalized list is a sublist of the flattened input). -/
theorem C8_slot_normalization :
    ∀ (days : List (String × List String)) (apiKey : String) (etid : Json) (sd ed : String),
      (∀ d ∈ days, ∀ t ∈ d.2, t ≠ "") →
      (getAvailableSlots (c8EnvV2 days) apiKey etid sd ed).1.getKey "success" = Json.bool true
      ∧ (getAvailableSlots (c8EnvV1 days) apiKey etid sd ed).1.getKey "success" = Json.bool true
      ∧ (getAvailableSlots (c8EnvV2 days) apiKey etid sd ed).1.getKey "slots"
          = (getAvailableSlots (c8EnvV1 days) apiKey etid sd ed).1.getKey "slots"
      ∧ (getAvailableSlots (c8EnvV2 days) apiKey etid sd ed).1.getKey "slots"
          = Json.arr ((dedupeKeepFirst (days.flatMap (fun d => d.2))).map Json.str)
      ∧ (dedupeKeepFirst (days.flatMap (fun d => d.2))).Nodup
      ∧ List.Sublist (dedupeKeepFirst (days.flatMap (fun d => d.2)))
          (days.flatMap (fun d => d.2)) := by
  intro days apiKey etid sd ed h
  have hb2 : (c8EnvV2 days).backend (v2SlotsSpec etid (normalizeDate sd) (normalizeDate ed))
      = NetOutcome.reply { status := 200, body := mkV2SlotsBody days, text := "" } := by
    simp [c8EnvV2, v2SlotsSpec]
  have hb1a : (c8EnvV1 days).backend (v2SlotsSpec etid (normalizeDate sd) (normalizeDate ed))
      = NetOutcome.reply { status := 503, body := Json.null, text := "down" } := by
    simp [c8EnvV1, v2SlotsSpec]
  have hb1b : (c8EnvV1 days).backend (v1SlotsSpec apiKey etid sd ed)
      = NetOutcome.reply { status := 200, body := mkV1SlotsBody days, text := "" } := by
    simp [c8EnvV1, v1SlotsSpec]
  have hparse2 : parseSlotsV2 (mkV2SlotsBody days) = days.flatMap (fun d => d.2) := by
    simp only [parseSlotsV2, mkV2SlotsBody, Json.getKey, Json.getKeyD, lookupField,
      List.find?]
    simp [slotsFromDateMap_v2 days h]
  have hparse1 : parseSlotsV1 (mkV1SlotsBody days) = days.flatMap (fun d => d.2) := by
    simp only [parseSlotsV1, mkV1SlotsBody, lookupField, List.find?]
    simp [slotsFromDateMap_v1 days h]
  have hlegs2 : (getAvailableSlotsLegs apiKey (c8EnvV2 days).backend etid sd ed).1
      = Except.ok { status := 200, url := "https://api.cal.com/v2/slots",
                    body := mkV2SlotsBody days, text := "" } := by
    simp only [getAvailableSlotsLegs,
      makeRequestWithRetry_reply (c8EnvV2 days).backend 2 _ _ (by omega) hb2]
    rw [if_neg (by simp)]
    rfl
  have hlegs1 : (getAvailableSlotsLegs apiKey (c8EnvV1 days).backend etid sd ed).1
      = Except.ok { status := 200, url := "https://api.cal.com/v1/slots",
                    body := mkV1SlotsBody days, text := "" } := by
    simp only [getAvailableSlotsLegs,
      makeRequestWithRetry_reply (c8EnvV1 days).backend 2 _ _ (by omega) hb1a]
    rw [if_pos (by simp)]
    exact makeRequestWithRetry_reply (c8EnvV1 days).backend 2 _ _ (by omega) hb1b
  have hres2 : (getAvailableSlots (c8EnvV2 days) apiKey etid sd ed).1
      = getAvailableSlotsHandle etid sd ed (Except.ok
          { status := 200, url := "https://api.cal.com/v2/slots",
            body := mkV2SlotsBody days, text := "" }) := by
    simp only [getAvailableSlots, hlegs2]
  have hres1 : (getAvailableSlots (c8EnvV1 days) apiKey etid sd ed).1
      = getAvailableSlotsHandle etid sd ed (Except.ok
          { status := 200, url := "https://api.cal.com/v1/slots",
            body := mkV1SlotsBody days, text := "" }) := by
    simp only [getAvailableSlots, hlegs1]
  rw [hres2, hres1]
  have hv2url : strContains "https://api.cal.com/v2/slots" "v2" = true := by decide
  have hv1url : strContains "https://api.cal.com/v1/slots" "v2" = false := by decide
  refine ⟨?_, ?_, ?_, ?_, dedupeKeepFirst_nodup _, dedupeKeepFirst_sublist _⟩ <;>
    simp [getAvailableSlotsHandle, hv2url, hv1url, hparse2, hparse1,
      Json.getKey, lookupField, List.find?]

def c8days : List (String × List String) :=
  [("2025-03-10", ["2025-03-10T17:00:00.000Z", "2025-03-10T18:00:00.000Z"]),
   ("2025-03-11", ["2025-03-10T17:00:00.000Z"])]

theorem C8_slot_normalization_witness :
    (getAvailableSlots (c8EnvV2 c8days) "k" (Json.num 5) "2025-03-10" "2025-03-11").1.getKey
        "success" = Json.bool true
    ∧ (getAvailableSlots (c8EnvV1 c8days) "k" (Json.num 5) "2025-03-10" "2025-03-11").1.getKey
        "success" = Json.bool true
    ∧ (getAvailableSlots (c8EnvV2 c8days) "k" (Json.num 5) "2025-03-10" "2025-03-11").1.getKey
        "slots"
      = (getAvailableSlots (c8EnvV1 c8days) "k" (Json.num 5) "2025-03-10" "2025-03-11").1.getKey
        "slots"
    ∧ (getAvailableSlots (c8EnvV2 c8days) "k" (Json.num 5) "2025-03-10" "2025-03-11").1.getKey
        "slots"
      = Json.arr ((dedupeKeepFirst (c8days.flatMap (fun d => d.2))).map Json.str)
    ∧ (dedupeKeepFirst (c8days.flatMap (fun d => d.2))).Nodup
    ∧ List.Sublist (dedupeKeepFirst (c8days.flatMap (fun d => d.2)))
        (c8days.flatMap (fun d => d.2)) :=
  C8_slot_normalization c8days "k" (Json.num 5) "2025-03-10" "2025-03-11" (by decide)

/-! ## Duplicate-in-flight suppression (claim C5) -/

theorem requestAttempts_count_lt500 (r : BackendReply) (n : Nat) (h : 1 ≤ n)
    (hs : r.status < 500) : (requestAttempts (NetOutcome.reply r) n).2 = 1 := by
  cases n with
  | zero => omega
  | succ m => simp [requestAttempts, hs]

theorem makeRequestWithRetry_trace_single (backend : Backend) (n : Nat) (spec : ReqSpec)
    (r : BackendReply) (h : 1 ≤ n) (hb : backend spec = NetOutcome.reply r)
    (hs : r.status < 500) :
    (makeRequestWithRetry backend n spec).2 = [spec] := by
  simp [makeRequestWithRetry, hb, requestAttempts_count_lt500 r n h hs]

theorem createBookingLegs_2xx (apiKey : String) (backend : Backend) (payload : Json)
    (rep : BackendReply) (hb : backend (v2CreateSpec payload) = NetOutcome.reply rep)
    (hs : rep.status < 400) :
    createBookingLegs apiKey backend payload
      = (Except.ok (HttpResponse.mk rep.status (v2CreateSpec payload).url rep.body rep.text),
         [v2CreateSpec payload]) := by
  simp only [createBookingLegs, makeRequestWithRetry_reply backend 3 _ rep (by omega) hb]
  rw [if_neg (by simp; omega)]
  rw [makeRequestWithRetry_trace_single backend 3 _ rep (by omega) hb (by omega)]

/-- C5.  While a creation request for a given (event type, start, email) key
is outstanding — i.e. the key sits in `_processing_bookings`, where the
first call put it before issuing its network request — a second call with
the same key returns the duplicate-in-progress failure dictionary, issues no
request and leaves the state untouched; the first call (key not yet
in-flight, payload valid, v2 replying below 400) issues exactly one creation
request, so exactly one network creation attempt is made across the two
calls. -/
theorem C5_duplicate_suppression :
    ∀ (env : Env) (apiKey : String) (ks : List String) (etid : Json) (startT : String)
      (email name : Json) (tz lang reason : String) (rep : BackendReply),
      ks.contains (bookingKeyOf etid startT email) = false →
      (validateBookingPayload env.isoOk
        (buildBookingPayload etid startT email name tz lang reason)).valid = true →
      env.backend (v2CreateSpec (buildBookingPayload etid startT email name tz lang reason))
        = NetOutcome.reply rep →
      rep.status < 400 →
      (createBooking env apiKey { errorLog := [], processing := some ks }
          etid startT email name tz lang reason).2.2
        = [v2CreateSpec (buildBookingPayload etid startT email name tz lang reason)]
      ∧ (createBooking env apiKey
          { errorLog := [], processing := some (ks ++ [bookingKeyOf etid startT email]) }
          etid startT email name tz lang reason).1
        = some (Json.obj
            [("success", Json.bool false),
             ("error", Json.str "This booking is already being processed. Please wait..."),
             ("duplicate_request", Json.bool true)])
      ∧ (createBooking env apiKey
          { errorLog := [], processing := some (ks ++ [bookingKeyOf etid startT email]) }
          etid startT email name tz lang reason).2.2 = []
      ∧ (createBooking env apiKey
          { errorLog := [], processing := some (ks ++ [bookingKeyOf etid startT email]) }
          etid startT email name tz lang reason).2.1
        = { errorLog := [], processing := some (ks ++ [bookingKeyOf etid startT email]) }
      ∧ (createBooking env apiKey { errorLog := [], processing := some ks }
            etid startT email name tz lang reason).2.2.length
        + (createBooking env apiKey
            { errorLog := [], processing := some (ks ++ [bookingKeyOf etid startT email]) }
            etid startT email name tz lang reason).2.2.length = 1 := by
  intro env apiKey ks etid startT email name tz lang reason rep hks hvalid hb hs
  have hks' : bookingKeyOf etid startT email ∉ ks := by simpa using hks
  have hdup : ((ks ++ [bookingKeyOf etid startT email]).contains
      (bookingKeyOf etid startT email)) = true := by simp
  have hfirst : (createBooking env apiKey { errorLog := [], processing := some ks }
      etid startT email name tz lang reason).2.2
      = [v2CreateSpec (buildBookingPayload etid startT email name tz lang reason)] := by
    simp only [createBooking]
    rw [if_neg (by simp [hks'])]
    rw [if_neg (by simp [hvalid])]
    simp only [createBookingLegs_2xx apiKey env.backend _ rep hb hs]
    rw [if_neg (by simp; omega)]
  have hsecond2 : (createBooking env apiKey
      { errorLog := [], processing := some (ks ++ [bookingKeyOf etid startT email]) }
      etid startT email name tz lang reason).2.2 = [] := by
    simp only [createBooking]
    rw [if_pos hdup]
  have hsecond1 : (createBooking env apiKey
      { errorLog := [], processing := some (ks ++ [bookingKeyOf etid startT email]) }
      etid startT email name tz lang reason).1
      = some (Json.obj
          [("success", Json.bool false),
           ("error", Json.str "This booking is already being processed. Please wait..."),
           ("duplicate_request", Json.bool true)]) := by
    simp only [createBooking]
    rw [if_pos hdup]
  have hsecondSt : (createBooking env apiKey
      { errorLog := [], processing := some (ks ++ [bookingKeyOf etid startT email]) }
      etid startT email name tz lang reason).2.1
      = { errorLog := [], processing := some (ks ++ [bookingKeyOf etid startT email]) } := by
    simp only [createBooking]
    rw [if_pos hdup]
  refine ⟨hfirst, hsecond1, hsecond2, hsecondSt, ?_⟩
  rw [hfirst, hsecond2]
  rfl

def c5Env : Env :=
  { backend := fun _ => NetOutcome.reply { status := 200, body := Json.obj [], text := "" },
    isoOk := fun _ => true, fmtPst := fun s => s }

theorem C5_duplicate_suppression_witness :
    (createBooking c5Env "k" { errorLog := [], processing := some [] }
        (Json.num 3) "2025-03-11T10:00:00Z" (Json.str "a@b.c") (Json.str "A")
        "America/Los_Angeles" "en" "").2.2
      = [v2CreateSpec (buildBookingPayload (Json.num 3) "2025-03-11T10:00:00Z"
          (Json.str "a@b.c") (Json.str "A") "America/Los_Angeles" "en" "")]
    ∧ (createBooking c5Env "k"
        { errorLog := [],
          processing := some ([] ++ [bookingKeyOf (Json.num 3) "2025-03-11T10:00:00Z"
            (Json.str "a@b.c")]) }
        (Json.num 3) "2025-03-11T10:00:00Z" (Json.str "a@b.c") (Json.str "A")
        "America/Los_Angeles" "en" "").1
      = some (Json.obj
          [("success", Json.bool false),
           ("error", Json.str "This booking is already being processed. Please wait..."),
           ("duplicate_request", Json.bool true)])
    ∧ (createBooking c5Env "k"
        { errorLog := [],
          processing := some ([] ++ [bookingKeyOf (Json.num 3) "2025-03-11T10:00:00Z"
            (Json.str "a@b.c")]) }
        (Json.num 3) "2025-03-11T10:00:00Z" (Json.str "a@b.c") (Json.str "A")
        "America/Los_Angeles" "en" "").2.2 = []
    ∧ (createBooking c5Env "k"
        { errorLog := [],
          processing := some ([] ++ [bookingKeyOf (Json.num 3) "2025-03-11T10:00:00Z"
            (Json.str "a@b.c")]) }
        (Json.num 3) "2025-03-11T10:00:00Z" (Json.str "a@b.c") (Json.str "A")
        "America/Los_Angeles" "en" "").2.1
      = { errorLog := [],
          processing := some ([] ++ [bookingKeyOf (Json.num 3) "2025-03-11T10:00:00Z"
            (Json.str "a@b.c")]) }
    ∧ (createBooking c5Env "k" { errorLog := [], processing := some [] }
          (Json.num 3) "2025-03-11T10:00:00Z" (Json.str "a@b.c") (Json.str "A")
          "America/Los_Angeles" "en" "").2.2.length
      + (createBooking c5Env "k"
          { errorLog := [],
            processing := some ([] ++ [bookingKeyOf (Json.num 3) "2025-03-11T10:00:00Z"
              (Json.str "a@b.c")]) }
          (Json.num 3) "2025-03-11T10:00:00Z" (Json.str "a@b.c") (Json.str "A")
          "America/Los_Angeles" "en" "").2.2.length = 1 :=
  C5_duplicate_suppression c5Env "k" [] (Json.num 3) "2025-03-11T10:00:00Z"
    (Json.str "a@b.c") (Json.str "A") "America/Los_Angeles" "en" ""
    { status := 200, body := Json.obj [], text := "" }
    (by decide) (by decide) (by decide) (by decide)

/-! ## Email validation before any network call (claim C9) -/

theorem validate_email_error_mem (isoOk : String → Bool) (etid : Json) (startT : String)
    (email : String) (name : Json) (tz lang reason : String)
    (he : email ≠ "") (hat : strContains email "@" = false) :
    "attendee email must be valid" ∈ (validateBookingPayload isoOk
      (buildBookingPayload etid startT (Json.str email) name tz lang reason)).errors := by
  have he' : (email != "") = true := by simpa using he
  simp only [validateBookingPayload, buildBookingPayload, Json.getKey, Json.getKeyD,
    lookupField]
  simp [Json.truthy, pyStr, he', hat, List.find?]

theorem validate_email_invalid (isoOk : String → Bool) (etid : Json) (startT : String)
    (email : String) (name : Json) (tz lang reason : String)
    (he : email ≠ "") (hat : strContains email "@" = false) :
    (validateBookingPayload isoOk
      (buildBookingPayload etid startT (Json.str email) name tz lang reason)).valid = false := by
  have hmem := validate_email_error_mem isoOk etid startT email name tz lang reason he hat
  have hne := List.ne_nil_of_mem hmem
  cases hl : (validateBookingPayload isoOk
      (buildBookingPayload etid startT (Json.str email) name tz lang reason)).errors with
  | nil => exact absurd hl hne
  | cons x tl =>
      have : (validateBookingPayload isoOk
          (buildBookingPayload etid startT (Json.str email) name tz lang reason)).valid
          = (validateBookingPayload isoOk
          (buildBookingPayload etid startT (Json.str email) name tz lang reason)).errors.isEmpty := by
        simp [validateBookingPayload]
      rw [this, hl]
      rfl

/-- C9.  A `create_booking` call whose attendee email is present but lacks
an `@` — and whose key is not already held by an outstanding request, which
would be rejected as a duplicate first (claim C5) — returns a validation
failure whose error list contains "attendee email must be valid", and makes
no network request at all. -/
theorem C9_email_validation :
    ∀ (env : Env) (apiKey : String) (st : ApiState) (etid : Json) (startT : String)
      (email : String) (name : Json) (tz lang reason : String),
      email ≠ "" →
      strContains email "@" = false →
      ((st.processing.getD []).contains (bookingKeyOf etid startT (Json.str email))) = false →
      ((createBooking env apiKey st etid startT (Json.str email) name tz lang reason).1.map
          (fun r => r.getKey "success")) = some (Json.bool false)
      ∧ ((createBooking env apiKey st etid startT (Json.str email) name tz lang reason).1.map
          (fun r => r.getKey "validation_errors"))
        = some (Json.arr ((validateBookingPayload env.isoOk
            (buildBookingPayload etid startT (Json.str email) name tz lang reason)).errors.map
              Json.str))
      ∧ "attendee email must be valid" ∈ (validateBookingPayload env.isoOk
          (buildBookingPayload etid startT (Json.str email) name tz lang reason)).errors
      ∧ (createBooking env apiKey st etid startT (Json.str email) name tz lang reason).2.2
        = [] := by
  intro env apiKey st etid startT email name tz lang reason he hat hkey
  have hmem := validate_email_error_mem env.isoOk etid startT email name tz lang reason he hat
  have hinvalid := validate_email_invalid env.isoOk etid startT email name tz lang reason he hat
  have hdup : (match st.processing with
      | some ks => ks.contains (bookingKeyOf etid startT (Json.str email))
      | none => false) = false := by
    cases hp : st.processing with
    | none => rfl
    | some ks => simpa [hp] using hkey
  have hdup2 : ¬ ((match st.processing with
      | some ks => ks.contains (bookingKeyOf etid startT (Json.str email))
      | none => false) = true) := by
    intro hcon
    rw [hdup] at hcon
    exact absurd hcon (by simp)
  refine ⟨?_, ?_, hmem, ?_⟩ <;>
    simp only [createBooking] <;>
    rw [if_neg hdup2] <;>
    rw [if_pos (by simp [hinvalid])] <;>
    simp [Json.getKey, lookupField, List.find?]

def c9Env : Env :=
  { backend := fun _ => NetOutcome.transportError "must never be called",
    isoOk := fun _ => true, fmtPst := fun s => s }

theorem C9_email_validation_witness :
    ((createBooking c9Env "k" {} (Json.num 3) "2025-03-11T10:00:00Z" (Json.str "bob")
        (Json.str "A") "America/Los_Angeles" "en" "").1.map
        (fun r => r.getKey "success")) = some (Json.bool false)
    ∧ ((createBooking c9Env "k" {} (Json.num 3) "2025-03-11T10:00:00Z" (Json.str "bob")
        (Json.str "A") "America/Los_Angeles" "en" "").1.map
        (fun r => r.getKey "validation_errors"))
      = some (Json.arr ((validateBookingPayload c9Env.isoOk
          (buildBookingPayload (Json.num 3) "2025-03-11T10:00:00Z" (Json.str "bob")
            (Json.str "A") "America/Los_Angeles" "en" "")).errors.map Json.str))
    ∧ "attendee email must be valid" ∈ (validateBookingPayload c9Env.isoOk
        (buildBookingPayload (Json.num 3) "2025-03-11T10:00:00Z" (Json.str "bob")
          (Json.str "A") "America/Los_Angeles" "en" "")).errors
    ∧ (createBooking c9Env "k" {} (Json.num 3) "2025-03-11T10:00:00Z" (Json.str "bob")
        (Json.str "A") "America/Los_Angeles" "en" "").2.2 = [] :=
  C9_email_validation c9Env "k" {} (Json.num 3) "2025-03-11T10:00:00Z" "bob"
    (Json.str "A") "America/Los_Angeles" "en" "" (by decide) (by decide) (by decide)

/-! ## Error-log bounds (claim C10) -/

theorem logAppend_eq_drop (log : List LogEntry) (e : LogEntry) :
    logAppend log e = (log ++ [e]).drop ((log ++ [e]).length - 50) := by
  simp only [logAppend]
  split
  · rfl
  · next h =>
      have h0 : (log ++ [e]).length - 50 = 0 := by omega
      rw [h0, List.drop_zero]

theorem logAppend_length_le (log : List LogEntry) (e : LogEntry) :
    (logAppend log e).length ≤ 50 := by
  rw [logAppend_eq_drop, List.length_drop]
  omega

theorem foldl_logAppend_eq_drop (es : List LogEntry) :
    ∀ acc : List LogEntry, acc.length ≤ 50 →
      es.foldl logAppend acc = (acc ++ es).drop ((acc ++ es).length - 50) := by
  induction es with
  | nil =>
      intro acc hacc
      have h0 : acc.length - 50 = 0 := by omega
      simp [h0]
  | cons e es ih =>
      intro acc hacc
      rw [List.foldl_cons, ih (logAppend acc e) (logAppend_length_le acc e),
        logAppend_eq_drop acc e]
      have hj : (acc ++ [e]).length - 50 ≤ (acc ++ [e]).length := by omega
      rw [← List.drop_append_of_le_length hj, List.drop_drop]
      have hassoc : acc ++ [e] ++ es = acc ++ e :: es := by
        rw [List.append_assoc]
        rfl
      rw [hassoc]
      congr 1
      simp [List.length_append, List.length_drop]
      omega

/-- **C10**: for every sequence of logged errors starting from an empty log, the
internal error log (`logAppend` folded over the entries, as `_log_error` does)
holds at most 50 entries and consists exactly of the most recently logged
entries in order (the suffix `es.drop (es.length - 50)`); and for every adapter
state, `getErrorLog` returns at most 10 entries, and those entries are a suffix
of the internal log (its last entries, in order). -/
theorem C10_error_log_bounds :
    (∀ es : List LogEntry,
        (es.foldl logAppend []).length ≤ 50 ∧
        es.foldl logAppend [] = es.drop (es.length - 50)) ∧
    (∀ st : ApiState,
        (getErrorLog st).length ≤ 10 ∧ List.IsSuffix (getErrorLog st) st.errorLog) := by
  constructor
  · intro es
    have h := foldl_logAppend_eq_drop es [] (by simp)
    simp only [List.nil_append] at h
    refine ⟨?_, h⟩
    rw [h, List.length_drop]
    omega
  · intro st
    refine ⟨?_, ?_⟩
    · rw [getErrorLog, List.length_drop]
      omega
    · exact List.drop_suffix _ _
